import Mathlib

/-!
Verification development for the zealc multi-pass 65816 assembler.

The definitions below are a shallow embedding of the assembler's core:
the system definition and opcode table (`src/snes_cpu.rs`,
`src/zeal/system_definition.rs`), the lexer (`src/zeal/lexer.rs`), the
symbol table (`src/zeal/symbol_table.rs`), the three semantic passes
(`src/zeal/collect_label_pass.rs`, `src/zeal/resolve_label_pass.rs`,
`src/zeal/instruction_statement_pass.rs`) and the output emitter
(`src/zeal/output_writer.rs`).  Machine integers (`u32`, `u8`, `i64`)
are modelled as `Nat`/`Int` with explicit reductions modulo `2^32` or
bit masks at the points where the Rust code truncates.  Each pass is a
fold of a per-node step function over the parse tree, mirroring the
`for node in parse_tree` loops of the source.
-/

namespace Zeal

/-- Modulus of the Rust `u32` type. -/
def u32Mod : Nat := 4294967296

/-- `ArgumentSize` from `system_definition.rs`. -/
inductive ArgumentSize where
  | Word8
  | Word16
  | Word24
  | Word32
deriving DecidableEq, Repr

/-- `argument_size_to_bit_size` from `system_definition.rs`. -/
def argument_size_to_bit_size : ArgumentSize → Nat
  | .Word8 => 8
  | .Word16 => 16
  | .Word24 => 24
  | .Word32 => 32

/-- `argument_size_to_byte_size` from `system_definition.rs`. -/
def argument_size_to_byte_size : ArgumentSize → Nat
  | .Word8 => 1
  | .Word16 => 2
  | .Word24 => 3
  | .Word32 => 4

/-- `number_to_argument_size` from `system_definition.rs`: classify a
`u32` value by its magnitude. -/
def number_to_argument_size (number : Nat) : ArgumentSize :=
  if number > 16777215 then ArgumentSize.Word32
  else if number > 65535 then ArgumentSize.Word24
  else if number > 255 then ArgumentSize.Word16
  else ArgumentSize.Word8

/-- `NumberLiteral` from `lexer.rs`: a `u32` value together with its
syntactic size. -/
structure NumberLiteral where
  number : Nat
  argument_size : ArgumentSize
deriving DecidableEq, Repr

/-- `InstructionArgument` from `system_definition.rs`. -/
inductive InstructionArgument where
  | Number (size : ArgumentSize)
  | Numbers (sizes : List ArgumentSize)
  | Register (name : String)
  | NotStaticRegister (name : String)
deriving DecidableEq, Repr

/-- `AddressingMode` from `system_definition.rs`. -/
inductive AddressingMode where
  | Implied
  | Immediate
  | Relative
  | SingleArgument
  | Indexed
  | Indirect
  | IndirectLong
  | IndexedIndirect
  | IndirectIndexed
  | IndirectIndexedLong
  | BlockMove
  | StackRelativeIndirectIndexed
deriving DecidableEq, Repr

/-- `InstructionInfo` from `system_definition.rs`: one opcode-table
entry. -/
structure InstructionInfo where
  name : String
  addressing : AddressingMode
  opcode : Nat
  arguments : List InstructionArgument
deriving DecidableEq, Repr

/-- `SystemDefinition` from `system_definition.rs` (the
`size_to_addressing_mode` rendering function and the display names feed
only diagnostic strings and are omitted). -/
structure SystemDefinition where
  is_big_endian : Bool
  label_size : ArgumentSize
  registers : List String
  instructions : List InstructionInfo

/-- Entries 0 to 31 of the SNES opcode table (`snes_cpu.rs`, source order). -/
def SNES_chunk0 : List InstructionInfo := [
  InstructionInfo.mk "adc" AddressingMode.IndexedIndirect 0x61 [InstructionArgument.Number ArgumentSize.Word8, InstructionArgument.Register "x"],
  InstructionInfo.mk "adc" AddressingMode.Indexed 0x63 [InstructionArgument.Number ArgumentSize.Word8, InstructionArgument.Register "s"],
  InstructionInfo.mk "adc" AddressingMode.SingleArgument 0x65 [InstructionArgument.Number ArgumentSize.Word8],
  InstructionInfo.mk "adc" AddressingMode.IndirectLong 0x67 [InstructionArgument.Number ArgumentSize.Word8],
  InstructionInfo.mk "adc" AddressingMode.Immediate 0x69 [InstructionArgument.Numbers [ArgumentSize.Word8, ArgumentSize.Word16]],
  InstructionInfo.mk "adc" AddressingMode.SingleArgument 0x6D [InstructionArgument.Number ArgumentSize.Word16],
  InstructionInfo.mk "adc" AddressingMode.SingleArgument 0x6F [InstructionArgument.Number ArgumentSize.Word24],
  InstructionInfo.mk "adc" AddressingMode.IndirectIndexed 0x71 [InstructionArgument.Number ArgumentSize.Word8, InstructionArgument.Register "y"],
  InstructionInfo.mk "adc" AddressingMode.Indirect 0x72 [InstructionArgument.Number ArgumentSize.Word8],
  InstructionInfo.mk "adc" AddressingMode.StackRelativeIndirectIndexed 0x73 [InstructionArgument.Number ArgumentSize.Word8, InstructionArgument.Register "s", InstructionArgument.Register "y"],
  InstructionInfo.mk "adc" AddressingMode.Indexed 0x75 [InstructionArgument.Number ArgumentSize.Word8, InstructionArgument.Register "x"],
  InstructionInfo.mk "adc" AddressingMode.IndirectIndexedLong 0x77 [InstructionArgument.Number ArgumentSize.Word8, InstructionArgument.Register "y"],
  InstructionInfo.mk "adc" AddressingMode.Indexed 0x79 [InstructionArgument.Number ArgumentSize.Word16, InstructionArgument.Register "y"],
  InstructionInfo.mk "adc" AddressingMode.Indexed 0x7D [InstructionArgument.Number ArgumentSize.Word16, InstructionArgument.Register "x"],
  InstructionInfo.mk "adc" AddressingMode.Indexed 0x7F [InstructionArgument.Number ArgumentSize.Word24, InstructionArgument.Register "x"],
  InstructionInfo.mk "and" AddressingMode.IndexedIndirect 0x21 [InstructionArgument.Number ArgumentSize.Word8, InstructionArgument.Register "x"],
  InstructionInfo.mk "and" AddressingMode.Indexed 0x23 [InstructionArgument.Number ArgumentSize.Word8, InstructionArgument.Register "s"],
  InstructionInfo.mk "and" AddressingMode.SingleArgument 0x25 [InstructionArgument.Number ArgumentSize.Word8],
  InstructionInfo.mk "and" AddressingMode.IndirectLong 0x27 [InstructionArgument.Number ArgumentSize.Word8],
  InstructionInfo.mk "and" AddressingMode.Immediate 0x29 [InstructionArgument.Numbers [ArgumentSize.Word8, ArgumentSize.Word16]],
  InstructionInfo.mk "and" AddressingMode.SingleArgument 0x2D [InstructionArgument.Number ArgumentSize.Word16],
  InstructionInfo.mk "and" AddressingMode.SingleArgument 0x2F [InstructionArgument.Number ArgumentSize.Word24],
  InstructionInfo.mk "and" AddressingMode.IndirectIndexed 0x31 [InstructionArgument.Number ArgumentSize.Word8, InstructionArgument.Register "y"],
  InstructionInfo.mk "and" AddressingMode.Indirect 0x32 [InstructionArgument.Number ArgumentSize.Word8],
  InstructionInfo.mk "and" AddressingMode.StackRelativeIndirectIndexed 0x33 [InstructionArgument.Number ArgumentSize.Word8, InstructionArgument.Register "s", InstructionArgument.Register "y"],
  InstructionInfo.mk "and" AddressingMode.Indexed 0x35 [InstructionArgument.Number ArgumentSize.Word8, InstructionArgument.Register "x"],
  InstructionInfo.mk "and" AddressingMode.IndirectIndexedLong 0x37 [InstructionArgument.Number ArgumentSize.Word8, InstructionArgument.Register "y"],
  InstructionInfo.mk "and" AddressingMode.Indexed 0x39 [InstructionArgument.Number ArgumentSize.Word16, InstructionArgument.Register "y"],
  InstructionInfo.mk "and" AddressingMode.Indexed 0x3D [InstructionArgument.Number ArgumentSize.Word16, InstructionArgument.Register "x"],
  InstructionInfo.mk "and" AddressingMode.Indexed 0x3F [InstructionArgument.Number ArgumentSize.Word24, InstructionArgument.Register "x"],
  InstructionInfo.mk "asl" AddressingMode.SingleArgument 0x06 [InstructionArgument.Number ArgumentSize.Word8],
  InstructionInfo.mk "asl" AddressingMode.Implied 0x0A []]

/-- Entries 32 to 63 of the SNES opcode table (`snes_cpu.rs`, source order). -/
def SNES_chunk1 : List InstructionInfo := [
  InstructionInfo.mk "asl" AddressingMode.SingleArgument 0x0E [InstructionArgument.Number ArgumentSize.Word16],
  InstructionInfo.mk "asl" AddressingMode.Indexed 0x16 [InstructionArgument.Number ArgumentSize.Word8, InstructionArgument.Register "x"],
  InstructionInfo.mk "asl" AddressingMode.Indexed 0x1E [InstructionArgument.Number ArgumentSize.Word16, InstructionArgument.Register "x"],
  InstructionInfo.mk "bcc" AddressingMode.Relative 0x90 [InstructionArgument.Number ArgumentSize.Word8],
  InstructionInfo.mk "bcs" AddressingMode.Relative 0xB0 [InstructionArgument.Number ArgumentSize.Word8],
  InstructionInfo.mk "beq" AddressingMode.Relative 0xF0 [InstructionArgument.Number ArgumentSize.Word8],
  InstructionInfo.mk "bit" AddressingMode.SingleArgument 0x24 [InstructionArgument.Number ArgumentSize.Word8],
  InstructionInfo.mk "bit" AddressingMode.SingleArgument 0x2C [InstructionArgument.Number ArgumentSize.Word16],
  InstructionInfo.mk "bit" AddressingMode.Indexed 0x34 [InstructionArgument.Number ArgumentSize.Word8, InstructionArgument.Register "x"],
  InstructionInfo.mk "bit" AddressingMode.Indexed 0x3C [InstructionArgument.Number ArgumentSize.Word16, InstructionArgument.Register "x"],
  InstructionInfo.mk "bit" AddressingMode.Immediate 0x89 [InstructionArgument.Numbers [ArgumentSize.Word8, ArgumentSize.Word16]],
  InstructionInfo.mk "bmi" AddressingMode.Relative 0x30 [InstructionArgument.Number ArgumentSize.Word8],
  InstructionInfo.mk "bne" AddressingMode.Relative 0xD0 [InstructionArgument.Number ArgumentSize.Word8],
  InstructionInfo.mk "bpl" AddressingMode.Relative 0x10 [InstructionArgument.Number ArgumentSize.Word8],
  InstructionInfo.mk "bra" AddressingMode.Relative 0x80 [InstructionArgument.Number ArgumentSize.Word8],
  InstructionInfo.mk "brk" AddressingMode.Implied 0x00 [],
  InstructionInfo.mk "brl" AddressingMode.Relative 0x82 [InstructionArgument.Number ArgumentSize.Word16],
  InstructionInfo.mk "bvc" AddressingMode.Relative 0x50 [InstructionArgument.Number ArgumentSize.Word8],
  InstructionInfo.mk "bvs" AddressingMode.Relative 0x70 [InstructionArgument.Number ArgumentSize.Word8],
  InstructionInfo.mk "clc" AddressingMode.Implied 0x18 [],
  InstructionInfo.mk "cld" AddressingMode.Implied 0xD8 [],
  InstructionInfo.mk "cli" AddressingMode.Implied 0x58 [],
  InstructionInfo.mk "clv" AddressingMode.Implied 0xB8 [],
  InstructionInfo.mk "cmp" AddressingMode.IndexedIndirect 0xC1 [InstructionArgument.Number ArgumentSize.Word8, InstructionArgument.Register "x"],
  InstructionInfo.mk "cmp" AddressingMode.Indexed 0xC3 [InstructionArgument.Number ArgumentSize.Word8, InstructionArgument.Register "s"],
  InstructionInfo.mk "cmp" AddressingMode.SingleArgument 0xC5 [InstructionArgument.Number ArgumentSize.Word8],
  InstructionInfo.mk "cmp" AddressingMode.IndirectLong 0xC7 [InstructionArgument.Number ArgumentSize.Word8],
  InstructionInfo.mk "cmp" AddressingMode.Immediate 0xC9 [InstructionArgument.Numbers [ArgumentSize.Word8, ArgumentSize.Word16]],
  InstructionInfo.mk "cmp" AddressingMode.SingleArgument 0xCD [InstructionArgument.Number ArgumentSize.Word16],
  InstructionInfo.mk "cmp" AddressingMode.SingleArgument 0xCF [InstructionArgument.Number ArgumentSize.Word24],
  InstructionInfo.mk "cmp" AddressingMode.IndirectIndexed 0xD1 [InstructionArgument.Number ArgumentSize.Word8, InstructionArgument.Register "y"],
  InstructionInfo.mk "cmp" AddressingMode.Indirect 0xD2 [InstructionArgument.Number ArgumentSize.Word8]]

/-- Entries 64 to 95 of the SNES opcode table (`snes_cpu.rs`, source order). -/
def SNES_chunk2 : List InstructionInfo := [
  InstructionInfo.mk "cmp" AddressingMode.StackRelativeIndirectIndexed 0xD3 [InstructionArgument.Number ArgumentSize.Word8, InstructionArgument.Register "s", InstructionArgument.Register "y"],
  InstructionInfo.mk "cmp" AddressingMode.Indexed 0xD5 [InstructionArgument.Number ArgumentSize.Word8, InstructionArgument.Register "x"],
  InstructionInfo.mk "cmp" AddressingMode.IndirectIndexedLong 0xD7 [InstructionArgument.Number ArgumentSize.Word8, InstructionArgument.Register "y"],
  InstructionInfo.mk "cmp" AddressingMode.Indexed 0xD9 [InstructionArgument.Number ArgumentSize.Word16, InstructionArgument.Register "y"],
  InstructionInfo.mk "cmp" AddressingMode.Indexed 0xDD [InstructionArgument.Number ArgumentSize.Word16, InstructionArgument.Register "x"],
  InstructionInfo.mk "cmp" AddressingMode.Indexed 0xDF [InstructionArgument.Number ArgumentSize.Word24, InstructionArgument.Register "x"],
  InstructionInfo.mk "cop" AddressingMode.SingleArgument 0x02 [InstructionArgument.Number ArgumentSize.Word8],
  InstructionInfo.mk "cpx" AddressingMode.Immediate 0xE0 [InstructionArgument.Numbers [ArgumentSize.Word8, ArgumentSize.Word16]],
  InstructionInfo.mk "cpx" AddressingMode.SingleArgument 0xE4 [InstructionArgument.Number ArgumentSize.Word8],
  InstructionInfo.mk "cpx" AddressingMode.SingleArgument 0xEC [InstructionArgument.Number ArgumentSize.Word16],
  InstructionInfo.mk "cpy" AddressingMode.Immediate 0xC0 [InstructionArgument.Numbers [ArgumentSize.Word8, ArgumentSize.Word16]],
  InstructionInfo.mk "cpy" AddressingMode.SingleArgument 0xC4 [InstructionArgument.Number ArgumentSize.Word8],
  InstructionInfo.mk "cpy" AddressingMode.SingleArgument 0xCC [InstructionArgument.Number ArgumentSize.Word16],
  InstructionInfo.mk "dec" AddressingMode.Implied 0x3A [],
  InstructionInfo.mk "dec" AddressingMode.SingleArgument 0xC6 [InstructionArgument.Number ArgumentSize.Word8],
  InstructionInfo.mk "dec" AddressingMode.SingleArgument 0xCE [InstructionArgument.Number ArgumentSize.Word16],
  InstructionInfo.mk "dec" AddressingMode.Indexed 0xD6 [InstructionArgument.Number ArgumentSize.Word8, InstructionArgument.Register "x"],
  InstructionInfo.mk "dec" AddressingMode.Indexed 0xDE [InstructionArgument.Number ArgumentSize.Word16, InstructionArgument.Register "x"],
  InstructionInfo.mk "dex" AddressingMode.Implied 0xCA [],
  InstructionInfo.mk "dey" AddressingMode.Implied 0x88 [],
  InstructionInfo.mk "eor" AddressingMode.IndexedIndirect 0x41 [InstructionArgument.Number ArgumentSize.Word8, InstructionArgument.Register "x"],
  InstructionInfo.mk "eor" AddressingMode.Indexed 0x43 [InstructionArgument.Number ArgumentSize.Word8, InstructionArgument.Register "s"],
  InstructionInfo.mk "eor" AddressingMode.SingleArgument 0x45 [InstructionArgument.Number ArgumentSize.Word8],
  InstructionInfo.mk "eor" AddressingMode.IndirectLong 0x47 [InstructionArgument.Number ArgumentSize.Word8],
  InstructionInfo.mk "eor" AddressingMode.Immediate 0x49 [InstructionArgument.Numbers [ArgumentSize.Word8, ArgumentSize.Word16]],
  InstructionInfo.mk "eor" AddressingMode.SingleArgument 0x4D [InstructionArgument.Number ArgumentSize.Word16],
  InstructionInfo.mk "eor" AddressingMode.SingleArgument 0x4F [InstructionArgument.Number ArgumentSize.Word24],
  InstructionInfo.mk "eor" AddressingMode.IndirectIndexed 0x51 [InstructionArgument.Number ArgumentSize.Word8, InstructionArgument.Register "y"],
  InstructionInfo.mk "eor" AddressingMode.Indirect 0x52 [InstructionArgument.Number ArgumentSize.Word8],
  InstructionInfo.mk "eor" AddressingMode.StackRelativeIndirectIndexed 0x53 [InstructionArgument.Number ArgumentSize.Word8, InstructionArgument.Register "s", InstructionArgument.Register "y"],
  InstructionInfo.mk "eor" AddressingMode.Indexed 0x55 [InstructionArgument.Number ArgumentSize.Word8, InstructionArgument.Register "x"],
  InstructionInfo.mk "eor" AddressingMode.IndirectIndexedLong 0x57 [InstructionArgument.Number ArgumentSize.Word8, InstructionArgument.Register "y"]]

/-- Entries 96 to 127 of the SNES opcode table (`snes_cpu.rs`, source order). -/
def SNES_chunk3 : List InstructionInfo := [
  InstructionInfo.mk "eor" AddressingMode.Indexed 0x59 [InstructionArgument.Number ArgumentSize.Word16, InstructionArgument.Register "y"],
  InstructionInfo.mk "eor" AddressingMode.Indexed 0x5D [InstructionArgument.Number ArgumentSize.Word16, InstructionArgument.Register "x"],
  InstructionInfo.mk "eor" AddressingMode.Indexed 0x5F [InstructionArgument.Number ArgumentSize.Word24, InstructionArgument.Register "x"],
  InstructionInfo.mk "inc" AddressingMode.Implied 0x1A [],
  InstructionInfo.mk "inc" AddressingMode.SingleArgument 0xE6 [InstructionArgument.Number ArgumentSize.Word8],
  InstructionInfo.mk "inc" AddressingMode.SingleArgument 0xEE [InstructionArgument.Number ArgumentSize.Word16],
  InstructionInfo.mk "inc" AddressingMode.Indexed 0xF6 [InstructionArgument.Number ArgumentSize.Word8, InstructionArgument.Register "x"],
  InstructionInfo.mk "inc" AddressingMode.Indexed 0xFE [InstructionArgument.Number ArgumentSize.Word16, InstructionArgument.Register "x"],
  InstructionInfo.mk "inx" AddressingMode.Implied 0xE8 [],
  InstructionInfo.mk "iny" AddressingMode.Implied 0xC8 [],
  InstructionInfo.mk "jmp" AddressingMode.SingleArgument 0x4C [InstructionArgument.Number ArgumentSize.Word16],
  InstructionInfo.mk "jml" AddressingMode.SingleArgument 0x5C [InstructionArgument.Number ArgumentSize.Word24],
  InstructionInfo.mk "jmp" AddressingMode.Indirect 0x6C [InstructionArgument.Number ArgumentSize.Word16],
  InstructionInfo.mk "jmp" AddressingMode.IndexedIndirect 0x7C [InstructionArgument.Number ArgumentSize.Word16, InstructionArgument.Register "x"],
  InstructionInfo.mk "jmp" AddressingMode.IndirectLong 0xDC [InstructionArgument.Number ArgumentSize.Word16],
  InstructionInfo.mk "jsr" AddressingMode.SingleArgument 0x20 [InstructionArgument.Number ArgumentSize.Word16],
  InstructionInfo.mk "jsl" AddressingMode.SingleArgument 0x22 [InstructionArgument.Number ArgumentSize.Word24],
  InstructionInfo.mk "jsr" AddressingMode.IndexedIndirect 0xFC [InstructionArgument.Number ArgumentSize.Word16, InstructionArgument.Register "x"],
  InstructionInfo.mk "lda" AddressingMode.IndexedIndirect 0xA1 [InstructionArgument.Number ArgumentSize.Word8, InstructionArgument.Register "x"],
  InstructionInfo.mk "lda" AddressingMode.Indexed 0xA3 [InstructionArgument.Number ArgumentSize.Word8, InstructionArgument.Register "s"],
  InstructionInfo.mk "lda" AddressingMode.SingleArgument 0xA5 [InstructionArgument.Number ArgumentSize.Word8],
  InstructionInfo.mk "lda" AddressingMode.IndirectLong 0xA7 [InstructionArgument.Number ArgumentSize.Word8],
  InstructionInfo.mk "lda" AddressingMode.Immediate 0xA9 [InstructionArgument.Numbers [ArgumentSize.Word8, ArgumentSize.Word16]],
  InstructionInfo.mk "lda" AddressingMode.SingleArgument 0xAD [InstructionArgument.Number ArgumentSize.Word16],
  InstructionInfo.mk "lda" AddressingMode.SingleArgument 0xAF [InstructionArgument.Number ArgumentSize.Word24],
  InstructionInfo.mk "lda" AddressingMode.IndirectIndexed 0xB1 [InstructionArgument.Number ArgumentSize.Word8, InstructionArgument.Register "y"],
  InstructionInfo.mk "lda" AddressingMode.Indirect 0xB2 [InstructionArgument.Number ArgumentSize.Word8],
  InstructionInfo.mk "lda" AddressingMode.StackRelativeIndirectIndexed 0xB3 [InstructionArgument.Number ArgumentSize.Word8, InstructionArgument.Register "s", InstructionArgument.Register "y"],
  InstructionInfo.mk "lda" AddressingMode.Indexed 0xB5 [InstructionArgument.Number ArgumentSize.Word8, InstructionArgument.Register "x"],
  InstructionInfo.mk "lda" AddressingMode.IndirectIndexedLong 0xB7 [InstructionArgument.Number ArgumentSize.Word8, InstructionArgument.Register "y"],
  InstructionInfo.mk "lda" AddressingMode.Indexed 0xB9 [InstructionArgument.Number ArgumentSize.Word16, InstructionArgument.Register "y"],
  InstructionInfo.mk "lda" AddressingMode.Indexed 0xBD [InstructionArgument.Number ArgumentSize.Word16, InstructionArgument.Register "x"]]

/-- Entries 128 to 159 of the SNES opcode table (`snes_cpu.rs`, source order). -/
def SNES_chunk4 : List InstructionInfo := [
  InstructionInfo.mk "lda" AddressingMode.Indexed 0xBF [InstructionArgument.Number ArgumentSize.Word24, InstructionArgument.Register "x"],
  InstructionInfo.mk "ldx" AddressingMode.Immediate 0xA2 [InstructionArgument.Numbers [ArgumentSize.Word8, ArgumentSize.Word16]],
  InstructionInfo.mk "ldx" AddressingMode.SingleArgument 0xA6 [InstructionArgument.Number ArgumentSize.Word8],
  InstructionInfo.mk "ldx" AddressingMode.SingleArgument 0xAE [InstructionArgument.Number ArgumentSize.Word16],
  InstructionInfo.mk "ldx" AddressingMode.Indexed 0xB6 [InstructionArgument.Number ArgumentSize.Word8, InstructionArgument.Register "y"],
  InstructionInfo.mk "ldx" AddressingMode.Indexed 0xBE [InstructionArgument.Number ArgumentSize.Word16, InstructionArgument.Register "y"],
  InstructionInfo.mk "ldy" AddressingMode.Immediate 0xA0 [InstructionArgument.Numbers [ArgumentSize.Word8, ArgumentSize.Word16]],
  InstructionInfo.mk "ldy" AddressingMode.SingleArgument 0xA4 [InstructionArgument.Number ArgumentSize.Word8],
  InstructionInfo.mk "ldy" AddressingMode.SingleArgument 0xAC [InstructionArgument.Number ArgumentSize.Word16],
  InstructionInfo.mk "ldy" AddressingMode.Indexed 0xB4 [InstructionArgument.Number ArgumentSize.Word8, InstructionArgument.Register "x"],
  InstructionInfo.mk "ldy" AddressingMode.Indexed 0xBC [InstructionArgument.Number ArgumentSize.Word16, InstructionArgument.Register "x"],
  InstructionInfo.mk "lsr" AddressingMode.SingleArgument 0x46 [InstructionArgument.Number ArgumentSize.Word8],
  InstructionInfo.mk "lsr" AddressingMode.Implied 0x4A [],
  InstructionInfo.mk "lsr" AddressingMode.SingleArgument 0x4E [InstructionArgument.Number ArgumentSize.Word16],
  InstructionInfo.mk "lsr" AddressingMode.Indexed 0x56 [InstructionArgument.Number ArgumentSize.Word8, InstructionArgument.Register "x"],
  InstructionInfo.mk "lsr" AddressingMode.Indexed 0x5E [InstructionArgument.Number ArgumentSize.Word16, InstructionArgument.Register "x"],
  InstructionInfo.mk "mvn" AddressingMode.BlockMove 0x54 [InstructionArgument.Number ArgumentSize.Word8, InstructionArgument.Number ArgumentSize.Word8],
  InstructionInfo.mk "mvp" AddressingMode.BlockMove 0x44 [InstructionArgument.Number ArgumentSize.Word8, InstructionArgument.Number ArgumentSize.Word8],
  InstructionInfo.mk "nop" AddressingMode.Implied 0xEA [],
  InstructionInfo.mk "ora" AddressingMode.IndexedIndirect 0x01 [InstructionArgument.Number ArgumentSize.Word8, InstructionArgument.Register "x"],
  InstructionInfo.mk "ora" AddressingMode.Indexed 0x03 [InstructionArgument.Number ArgumentSize.Word8, InstructionArgument.Register "s"],
  InstructionInfo.mk "ora" AddressingMode.SingleArgument 0x05 [InstructionArgument.Number ArgumentSize.Word8],
  InstructionInfo.mk "ora" AddressingMode.IndirectLong 0x07 [InstructionArgument.Number ArgumentSize.Word8],
  InstructionInfo.mk "ora" AddressingMode.Immediate 0x09 [InstructionArgument.Numbers [ArgumentSize.Word8, ArgumentSize.Word16]],
  InstructionInfo.mk "ora" AddressingMode.SingleArgument 0x0D [InstructionArgument.Number ArgumentSize.Word16],
  InstructionInfo.mk "ora" AddressingMode.SingleArgument 0x0F [InstructionArgument.Number ArgumentSize.Word24],
  InstructionInfo.mk "ora" AddressingMode.IndirectIndexed 0x11 [InstructionArgument.Number ArgumentSize.Word8, InstructionArgument.Register "y"],
  InstructionInfo.mk "ora" AddressingMode.Indirect 0x12 [InstructionArgument.Number ArgumentSize.Word8],
  InstructionInfo.mk "ora" AddressingMode.StackRelativeIndirectIndexed 0x13 [InstructionArgument.Number ArgumentSize.Word8, InstructionArgument.Register "s", InstructionArgument.Register "y"],
  InstructionInfo.mk "ora" AddressingMode.Indexed 0x15 [InstructionArgument.Number ArgumentSize.Word8, InstructionArgument.Register "x"],
  InstructionInfo.mk "ora" AddressingMode.IndirectIndexedLong 0x17 [InstructionArgument.Number ArgumentSize.Word8, InstructionArgument.Register "y"],
  InstructionInfo.mk "ora" AddressingMode.Indexed 0x19 [InstructionArgument.Number ArgumentSize.Word16, InstructionArgument.Register "y"]]

/-- Entries 160 to 191 of the SNES opcode table (`snes_cpu.rs`, source order). -/
def SNES_chunk5 : List InstructionInfo := [
  InstructionInfo.mk "ora" AddressingMode.Indexed 0x1D [InstructionArgument.Number ArgumentSize.Word16, InstructionArgument.Register "x"],
  InstructionInfo.mk "ora" AddressingMode.Indexed 0x1F [InstructionArgument.Number ArgumentSize.Word24, InstructionArgument.Register "x"],
  InstructionInfo.mk "pea" AddressingMode.SingleArgument 0xF4 [InstructionArgument.Number ArgumentSize.Word16],
  InstructionInfo.mk "pei" AddressingMode.Indirect 0xD4 [InstructionArgument.Number ArgumentSize.Word8],
  InstructionInfo.mk "per" AddressingMode.SingleArgument 0x62 [InstructionArgument.Number ArgumentSize.Word16],
  InstructionInfo.mk "pha" AddressingMode.Implied 0x48 [],
  InstructionInfo.mk "phb" AddressingMode.Implied 0x8B [],
  InstructionInfo.mk "phd" AddressingMode.Implied 0x0B [],
  InstructionInfo.mk "phk" AddressingMode.Implied 0x4B [],
  InstructionInfo.mk "php" AddressingMode.Implied 0x08 [],
  InstructionInfo.mk "phx" AddressingMode.Implied 0xDA [],
  InstructionInfo.mk "pha" AddressingMode.Implied 0x5A [],
  InstructionInfo.mk "pla" AddressingMode.Implied 0x68 [],
  InstructionInfo.mk "plb" AddressingMode.Implied 0xAB [],
  InstructionInfo.mk "pld" AddressingMode.Implied 0x2B [],
  InstructionInfo.mk "plp" AddressingMode.Implied 0x28 [],
  InstructionInfo.mk "plx" AddressingMode.Implied 0xFA [],
  InstructionInfo.mk "ply" AddressingMode.Implied 0x7A [],
  InstructionInfo.mk "rep" AddressingMode.Immediate 0xC2 [InstructionArgument.Number ArgumentSize.Word8],
  InstructionInfo.mk "rol" AddressingMode.SingleArgument 0x26 [InstructionArgument.Number ArgumentSize.Word8],
  InstructionInfo.mk "rol" AddressingMode.Implied 0x2A [],
  InstructionInfo.mk "lsr" AddressingMode.SingleArgument 0x2E [InstructionArgument.Number ArgumentSize.Word16],
  InstructionInfo.mk "rol" AddressingMode.Indexed 0x36 [InstructionArgument.Number ArgumentSize.Word8, InstructionArgument.Register "x"],
  InstructionInfo.mk "rol" AddressingMode.Indexed 0x3E [InstructionArgument.Number ArgumentSize.Word16, InstructionArgument.Register "x"],
  InstructionInfo.mk "ror" AddressingMode.SingleArgument 0x66 [InstructionArgument.Number ArgumentSize.Word8],
  InstructionInfo.mk "ror" AddressingMode.Implied 0x6A [],
  InstructionInfo.mk "ror" AddressingMode.SingleArgument 0x6E [InstructionArgument.Number ArgumentSize.Word16],
  InstructionInfo.mk "ror" AddressingMode.Indexed 0x76 [InstructionArgument.Number ArgumentSize.Word8, InstructionArgument.Register "x"],
  InstructionInfo.mk "ror" AddressingMode.Indexed 0x7E [InstructionArgument.Number ArgumentSize.Word16, InstructionArgument.Register "x"],
  InstructionInfo.mk "rti" AddressingMode.Implied 0x40 [],
  InstructionInfo.mk "rtl" AddressingMode.Implied 0x6B [],
  InstructionInfo.mk "rts" AddressingMode.Implied 0x60 []]

/-- Entries 192 to 223 of the SNES opcode table (`snes_cpu.rs`, source order). -/
def SNES_chunk6 : List InstructionInfo := [
  InstructionInfo.mk "sbc" AddressingMode.IndexedIndirect 0xE1 [InstructionArgument.Number ArgumentSize.Word8, InstructionArgument.Register "x"],
  InstructionInfo.mk "sbc" AddressingMode.Indexed 0xE3 [InstructionArgument.Number ArgumentSize.Word8, InstructionArgument.Register "s"],
  InstructionInfo.mk "sbc" AddressingMode.SingleArgument 0xE5 [InstructionArgument.Number ArgumentSize.Word8],
  InstructionInfo.mk "sbc" AddressingMode.IndirectLong 0xE7 [InstructionArgument.Number ArgumentSize.Word8],
  InstructionInfo.mk "sbc" AddressingMode.Immediate 0xE9 [InstructionArgument.Numbers [ArgumentSize.Word8, ArgumentSize.Word16]],
  InstructionInfo.mk "sbc" AddressingMode.SingleArgument 0xED [InstructionArgument.Number ArgumentSize.Word16],
  InstructionInfo.mk "sbc" AddressingMode.SingleArgument 0xEF [InstructionArgument.Number ArgumentSize.Word24],
  InstructionInfo.mk "sbc" AddressingMode.IndirectIndexed 0xF1 [InstructionArgument.Number ArgumentSize.Word8, InstructionArgument.Register "y"],
  InstructionInfo.mk "sbc" AddressingMode.Indirect 0xF2 [InstructionArgument.Number ArgumentSize.Word8],
  InstructionInfo.mk "sbc" AddressingMode.StackRelativeIndirectIndexed 0xF3 [InstructionArgument.Number ArgumentSize.Word8, InstructionArgument.Register "s", InstructionArgument.Register "y"],
  InstructionInfo.mk "sbc" AddressingMode.Indexed 0xF5 [InstructionArgument.Number ArgumentSize.Word8, InstructionArgument.Register "x"],
  InstructionInfo.mk "sbc" AddressingMode.IndirectIndexedLong 0xF7 [InstructionArgument.Number ArgumentSize.Word8, InstructionArgument.Register "y"],
  InstructionInfo.mk "sbc" AddressingMode.Indexed 0xF9 [InstructionArgument.Number ArgumentSize.Word16, InstructionArgument.Register "y"],
  InstructionInfo.mk "sbc" AddressingMode.Indexed 0xFD [InstructionArgument.Number ArgumentSize.Word16, InstructionArgument.Register "x"],
  InstructionInfo.mk "sbc" AddressingMode.Indexed 0xFF [InstructionArgument.Number ArgumentSize.Word24, InstructionArgument.Register "x"],
  InstructionInfo.mk "sec" AddressingMode.Implied 0x38 [],
  InstructionInfo.mk "sed" AddressingMode.Implied 0xF8 [],
  InstructionInfo.mk "sei" AddressingMode.Implied 0x78 [],
  InstructionInfo.mk "sep" AddressingMode.Immediate 0xE2 [InstructionArgument.Number ArgumentSize.Word8],
  InstructionInfo.mk "sta" AddressingMode.IndexedIndirect 0x81 [InstructionArgument.Number ArgumentSize.Word8, InstructionArgument.Register "x"],
  InstructionInfo.mk "sta" AddressingMode.Indexed 0x83 [InstructionArgument.Number ArgumentSize.Word8, InstructionArgument.Register "s"],
  InstructionInfo.mk "sta" AddressingMode.SingleArgument 0x85 [InstructionArgument.Number ArgumentSize.Word8],
  InstructionInfo.mk "sta" AddressingMode.IndirectLong 0x87 [InstructionArgument.Number ArgumentSize.Word8],
  InstructionInfo.mk "sta" AddressingMode.SingleArgument 0x8D [InstructionArgument.Number ArgumentSize.Word16],
  InstructionInfo.mk "sta" AddressingMode.SingleArgument 0x8F [InstructionArgument.Number ArgumentSize.Word24],
  InstructionInfo.mk "sta" AddressingMode.IndirectIndexed 0x91 [InstructionArgument.Number ArgumentSize.Word8, InstructionArgument.Register "y"],
  InstructionInfo.mk "sta" AddressingMode.Indirect 0x92 [InstructionArgument.Number ArgumentSize.Word8],
  InstructionInfo.mk "sta" AddressingMode.StackRelativeIndirectIndexed 0x93 [InstructionArgument.Number ArgumentSize.Word8, InstructionArgument.Register "s", InstructionArgument.Register "y"],
  InstructionInfo.mk "sta" AddressingMode.Indexed 0x95 [InstructionArgument.Number ArgumentSize.Word8, InstructionArgument.Register "x"],
  InstructionInfo.mk "sta" AddressingMode.IndirectIndexedLong 0x97 [InstructionArgument.Number ArgumentSize.Word8, InstructionArgument.Register "y"],
  InstructionInfo.mk "sta" AddressingMode.Indexed 0x99 [InstructionArgument.Number ArgumentSize.Word16, InstructionArgument.Register "y"],
  InstructionInfo.mk "sta" AddressingMode.Indexed 0x9D [InstructionArgument.Number ArgumentSize.Word16, InstructionArgument.Register "x"]]

/-- Entries 224 to 255 of the SNES opcode table (`snes_cpu.rs`, source order). -/
def SNES_chunk7 : List InstructionInfo := [
  InstructionInfo.mk "sta" AddressingMode.Indexed 0x9F [InstructionArgument.Number ArgumentSize.Word24, InstructionArgument.Register "x"],
  InstructionInfo.mk "stp" AddressingMode.Implied 0xDB [],
  InstructionInfo.mk "stx" AddressingMode.SingleArgument 0x86 [InstructionArgument.Number ArgumentSize.Word8],
  InstructionInfo.mk "stx" AddressingMode.SingleArgument 0x8E [InstructionArgument.Number ArgumentSize.Word16],
  InstructionInfo.mk "stx" AddressingMode.Indexed 0x96 [InstructionArgument.Number ArgumentSize.Word8, InstructionArgument.Register "y"],
  InstructionInfo.mk "sty" AddressingMode.SingleArgument 0x84 [InstructionArgument.Number ArgumentSize.Word8],
  InstructionInfo.mk "sty" AddressingMode.SingleArgument 0x8C [InstructionArgument.Number ArgumentSize.Word16],
  InstructionInfo.mk "sty" AddressingMode.Indexed 0x94 [InstructionArgument.Number ArgumentSize.Word8, InstructionArgument.Register "x"],
  InstructionInfo.mk "stz" AddressingMode.SingleArgument 0x64 [InstructionArgument.Number ArgumentSize.Word8],
  InstructionInfo.mk "stz" AddressingMode.Indexed 0x74 [InstructionArgument.Number ArgumentSize.Word8, InstructionArgument.Register "x"],
  InstructionInfo.mk "stz" AddressingMode.SingleArgument 0x9C [InstructionArgument.Number ArgumentSize.Word16],
  InstructionInfo.mk "stz" AddressingMode.Indexed 0x9E [InstructionArgument.Number ArgumentSize.Word16, InstructionArgument.Register "x"],
  InstructionInfo.mk "tax" AddressingMode.Implied 0xAA [],
  InstructionInfo.mk "tay" AddressingMode.Implied 0xA8 [],
  InstructionInfo.mk "tcd" AddressingMode.Implied 0x5B [],
  InstructionInfo.mk "tcs" AddressingMode.Implied 0x1B [],
  InstructionInfo.mk "tdc" AddressingMode.Implied 0x7B [],
  InstructionInfo.mk "trb" AddressingMode.SingleArgument 0x14 [InstructionArgument.Number ArgumentSize.Word8],
  InstructionInfo.mk "trb" AddressingMode.SingleArgument 0x1C [InstructionArgument.Number ArgumentSize.Word16],
  InstructionInfo.mk "tsb" AddressingMode.SingleArgument 0x04 [InstructionArgument.Number ArgumentSize.Word8],
  InstructionInfo.mk "tsb" AddressingMode.SingleArgument 0x0C [InstructionArgument.Number ArgumentSize.Word16],
  InstructionInfo.mk "tsc" AddressingMode.Implied 0x3B [],
  InstructionInfo.mk "tsx" AddressingMode.Implied 0xBA [],
  InstructionInfo.mk "txa" AddressingMode.Implied 0x8A [],
  InstructionInfo.mk "txs" AddressingMode.Implied 0x9A [],
  InstructionInfo.mk "txa" AddressingMode.Implied 0x9B [],
  InstructionInfo.mk "tya" AddressingMode.Implied 0x98 [],
  InstructionInfo.mk "tyx" AddressingMode.Implied 0xBB [],
  InstructionInfo.mk "wai" AddressingMode.Implied 0xCB [],
  InstructionInfo.mk "wdm" AddressingMode.Implied 0x42 [],
  InstructionInfo.mk "xba" AddressingMode.Implied 0xEB [],
  InstructionInfo.mk "xce" AddressingMode.Implied 0xFB []]

/-- The static SNES opcode table `SNES_CPU.instructions` from `snes_cpu.rs`, in source order. -/
def SNES_instructions : List InstructionInfo :=
  SNES_chunk0 ++ SNES_chunk1 ++ SNES_chunk2 ++ SNES_chunk3 ++ SNES_chunk4 ++ SNES_chunk5 ++ SNES_chunk6 ++ SNES_chunk7

/-- The `SNES_CPU` system definition from `snes_cpu.rs`. -/
def SNES_CPU : SystemDefinition :=
  { is_big_endian := false
    label_size := ArgumentSize.Word16
    registers := ["x", "y", "s"]
    instructions := SNES_instructions }

/-- `SymbolTable` from `symbol_table.rs`: a map from label name to
`u32` address, modelled as an association list where the most recent
insertion is at the head (matching `HashMap::insert`, last write
wins). -/
def SymbolTable := List (String × Nat)

/-- `SymbolTable::add_or_update_label`: overwrite-or-insert. -/
def add_or_update_label (table : SymbolTable) (label_name : String) (address : Nat) : SymbolTable :=
  (label_name, address) :: List.filter (fun p => p.1 ≠ label_name) table

/-- `SymbolTable::address_for`: the address of a label, `0` when the
label is absent. -/
def address_for (table : SymbolTable) (label_name : String) : Nat :=
  match List.find? (fun p => p.1 = label_name) table with
  | some p => p.2
  | none => 0

/-- `SymbolTable::has_label`. -/
def has_label (table : SymbolTable) (label_name : String) : Bool :=
  List.any table (fun p => p.1 = label_name)

/-- `TokenType` from `lexer.rs`. -/
inductive TokenType where
  | Invalid (c : Char)
  | Identifier (s : String)
  | Opcode (s : String)
  | NumberLiteral (n : NumberLiteral)
  | StringLiteral (s : String)
  | Register (s : String)
  | Comma
  | Immediate
  | LeftParen
  | RightParen
  | LeftBracket
  | RightBracket
  | Colon
  | EndOfFile
  | KeywordInclude
  | KeywordIncbin
  | KeywordOrigin
  | KeywordSnesMap
deriving DecidableEq, Repr

/-- `Token` from `lexer.rs` (the `source_file` string is constant per
lexer and omitted). -/
structure Token where
  ttype : TokenType
  line : Nat
  start_column : Nat
  end_column : Nat
  context_start : Nat
deriving DecidableEq, Repr

/-- A placeholder start token for nodes built directly in theorems;
the passes clone tokens through without inspecting them. -/
def dummyToken : Token := ⟨TokenType.EndOfFile, 1, 1, 1, 0⟩

/-- `ParseArgument` from `parser.rs`. -/
inductive ParseArgument where
  | NumberLiteral (n : NumberLiteral)
  | Register (name : String)
  | Identifier (name : String)
deriving DecidableEq, Repr

/-- `FinalInstruction` from `parser.rs`.  The Rust variants hold
`&'static InstructionInfo` references into the opcode table; here they
hold the table entry by value. -/
inductive FinalInstruction where
  | ImpliedInstruction (info : InstructionInfo)
  | SingleArgumentInstruction (info : InstructionInfo) (argument : ParseArgument)
  | TwoArgumentInstruction (info : InstructionInfo) (argument1 argument2 : ParseArgument)
deriving DecidableEq, Repr

/-- `SnesMap` from `parser.rs`. -/
inductive SnesMap where
  | LoRom
  | HiRom
deriving DecidableEq, Repr

/-- `ParseExpression` from `parser.rs`. -/
inductive ParseExpression where
  | ImpliedInstruction (opcode_name : String)
  | ImmediateInstruction (opcode_name : String) (argument : ParseArgument)
  | SingleArgumentInstruction (opcode_name : String) (argument : ParseArgument)
  | IndexedInstruction (opcode_name : String) (argument1 argument2 : ParseArgument)
  | IndirectInstruction (opcode_name : String) (argument : ParseArgument)
  | IndirectLongInstruction (opcode_name : String) (argument : ParseArgument)
  | IndexedIndirectInstruction (opcode_name : String) (argument1 argument2 : ParseArgument)
  | IndirectIndexedInstruction (opcode_name : String) (argument1 argument2 : ParseArgument)
  | IndirectIndexedLongInstruction (opcode_name : String) (argument1 argument2 : ParseArgument)
  | BlockMoveInstruction (opcode_name : String) (argument1 argument2 : ParseArgument)
  | StackRelativeIndirectIndexedInstruction (opcode_name : String) (argument1 argument2 argument3 : ParseArgument)
  | FinalInstruction (f : FinalInstruction)
  | Label (name : String)
  | OriginStatement (n : NumberLiteral)
  | SnesMapStatement (m : SnesMap)
  | IncBinStatement (path : String) (file_size : Nat)
deriving DecidableEq, Repr

/-- `ParseNode` from `parser.rs`. -/
structure ParseNode where
  start_token : Token
  expression : ParseExpression
deriving DecidableEq, Repr

/-- `ErrorSeverity` from `parser.rs`. -/
inductive ErrorSeverity where
  | Error
  | Warning
deriving DecidableEq, Repr

/-- `ErrorMessage` from `parser.rs`.  Message texts are reproduced
only up to their identity; no claim inspects the string. -/
structure ErrorMessage where
  message : String
  token : Token
  severity : ErrorSeverity
deriving DecidableEq, Repr

/-- Inner loop of `find_instruction_argument_size` (both passes define
the same function): the first `Number`/nonempty-`Numbers` size among an
entry's arguments. -/
def first_number_size : List InstructionArgument → Option ArgumentSize
  | [] => none
  | InstructionArgument.Number s :: _ => some s
  | InstructionArgument.Numbers (s :: _) :: _ => some s
  | InstructionArgument.Numbers [] :: rest => first_number_size rest
  | InstructionArgument.Register _ :: rest => first_number_size rest
  | InstructionArgument.NotStaticRegister _ :: rest => first_number_size rest

/-- Table scan of `find_instruction_argument_size` from
`collect_label_pass.rs` / `resolve_label_pass.rs`: first entry in table
order with the given mnemonic, an addressing mode in the candidate
list, and a numeric argument. -/
def find_instruction_argument_size_in (instrs : List InstructionInfo) (opcode_name : String) (possible_addressings : List AddressingMode) : Option ArgumentSize :=
  match instrs with
  | [] => none
  | i :: rest =>
    if i.name = opcode_name ∧ i.addressing ∈ possible_addressings then
      match first_number_size i.arguments with
      | some s => some s
      | none => find_instruction_argument_size_in rest opcode_name possible_addressings
    else find_instruction_argument_size_in rest opcode_name possible_addressings

/-- `find_instruction_argument_size` on a system definition. -/
def find_instruction_argument_size (sys : SystemDefinition) (opcode_name : String) (possible_addressings : List AddressingMode) : Option ArgumentSize :=
  find_instruction_argument_size_in sys.instructions opcode_name possible_addressings

/-- `ResolveLabelPass::is_branching_instruction`: some table entry with
this mnemonic uses `Relative` addressing. -/
def is_branching_in : List InstructionInfo → String → Bool
  | [], _ => false
  | i :: rest, opcode_name =>
    if i.name = opcode_name ∧ i.addressing = AddressingMode.Relative then true
    else is_branching_in rest opcode_name

/-- `is_branching_instruction` on a system definition. -/
def is_branching_instruction (sys : SystemDefinition) (opcode_name : String) : Bool :=
  is_branching_in sys.instructions opcode_name

/-- The operand byte count pass 1 charges for one argument of an
instruction: literal arguments contribute their own size, identifier
arguments the table-derived size (falling back to the system
`label_size`), register arguments nothing. -/
def arg_byte_count (sys : SystemDefinition) (opcode_name : String) (modes : List AddressingMode) : ParseArgument → Nat
  | ParseArgument.NumberLiteral n => argument_size_to_byte_size n.argument_size
  | ParseArgument.Identifier _ =>
    match find_instruction_argument_size sys opcode_name modes with
    | some size => argument_size_to_byte_size size
    | none => argument_size_to_byte_size sys.label_size
  | ParseArgument.Register _ => 0

/-- State threaded through `CollectLabelPass::do_pass`
(`collect_label_pass.rs`): the running program counter, the symbol
table being populated, and the output tree.  The pass has an
`error_messages` list but never appends to it. -/
structure CollectState where
  current_address : Nat
  symbol_table : SymbolTable
  new_tree : List ParseNode

/-- One iteration of the `for node in parse_tree` loop of
`CollectLabelPass::do_pass`. -/
def collect_step (sys : SystemDefinition) (st : CollectState) (node : ParseNode) : CollectState :=
  match node.expression with
  | ParseExpression.ImpliedInstruction _ =>
    { st with new_tree := st.new_tree ++ [node],
              current_address := (st.current_address + 1) % u32Mod }
  | ParseExpression.ImmediateInstruction _ argument =>
    let addr := (st.current_address + 1) % u32Mod
    let addr := match argument with
      | ParseArgument.NumberLiteral n => (addr + argument_size_to_byte_size n.argument_size) % u32Mod
      | ParseArgument.Identifier _ => (addr + argument_size_to_byte_size sys.label_size) % u32Mod
      | ParseArgument.Register _ => addr
    { st with new_tree := st.new_tree ++ [node], current_address := addr }
  | ParseExpression.SingleArgumentInstruction opcode_name argument =>
    let addr := (st.current_address + 1) % u32Mod
    { st with new_tree := st.new_tree ++ [node],
              current_address := (addr + arg_byte_count sys opcode_name [AddressingMode.SingleArgument, AddressingMode.Relative] argument) % u32Mod }
  | ParseExpression.IndexedInstruction opcode_name argument1 argument2 =>
    let addr := (st.current_address + 1) % u32Mod
    let addr := (addr + arg_byte_count sys opcode_name [AddressingMode.Indexed] argument1) % u32Mod
    { st with new_tree := st.new_tree ++ [node],
              current_address := (addr + arg_byte_count sys opcode_name [AddressingMode.Indexed] argument2) % u32Mod }
  | ParseExpression.IndirectInstruction opcode_name argument =>
    let addr := (st.current_address + 1) % u32Mod
    { st with new_tree := st.new_tree ++ [node],
              current_address := (addr + arg_byte_count sys opcode_name [AddressingMode.Indirect] argument) % u32Mod }
  | ParseExpression.IndirectLongInstruction opcode_name argument =>
    -- pass 1 looks the identifier size up under `Indirect`, not `IndirectLong`
    let addr := (st.current_address + 1) % u32Mod
    { st with new_tree := st.new_tree ++ [node],
              current_address := (addr + arg_byte_count sys opcode_name [AddressingMode.Indirect] argument) % u32Mod }
  | ParseExpression.IndexedIndirectInstruction opcode_name argument1 argument2 =>
    let addr := (st.current_address + 1) % u32Mod
    let addr := (addr + arg_byte_count sys opcode_name [AddressingMode.IndexedIndirect] argument1) % u32Mod
    { st with new_tree := st.new_tree ++ [node],
              current_address := (addr + arg_byte_count sys opcode_name [AddressingMode.IndexedIndirect] argument2) % u32Mod }
  | ParseExpression.IndirectIndexedInstruction opcode_name argument1 argument2 =>
    let addr := (st.current_address + 1) % u32Mod
    let addr := (addr + arg_byte_count sys opcode_name [AddressingMode.IndirectIndexed] argument1) % u32Mod
    { st with new_tree := st.new_tree ++ [node],
              current_address := (addr + arg_byte_count sys opcode_name [AddressingMode.IndirectIndexed] argument2) % u32Mod }
  | ParseExpression.IndirectIndexedLongInstruction opcode_name argument1 argument2 =>
    let addr := (st.current_address + 1) % u32Mod
    let addr := (addr + arg_byte_count sys opcode_name [AddressingMode.IndirectIndexedLong] argument1) % u32Mod
    { st with new_tree := st.new_tree ++ [node],
              current_address := (addr + arg_byte_count sys opcode_name [AddressingMode.IndirectIndexedLong] argument2) % u32Mod }
  | ParseExpression.BlockMoveInstruction opcode_name argument1 argument2 =>
    let addr := (st.current_address + 1) % u32Mod
    let addr := (addr + arg_byte_count sys opcode_name [AddressingMode.BlockMove] argument1) % u32Mod
    { st with new_tree := st.new_tree ++ [node],
              current_address := (addr + arg_byte_count sys opcode_name [AddressingMode.BlockMove] argument2) % u32Mod }
  | ParseExpression.StackRelativeIndirectIndexedInstruction opcode_name argument1 argument2 argument3 =>
    -- pass 1 looks the second argument up under `BlockMove` (source line 430)
    let addr := (st.current_address + 1) % u32Mod
    let addr := (addr + arg_byte_count sys opcode_name [AddressingMode.StackRelativeIndirectIndexed] argument1) % u32Mod
    let addr := (addr + arg_byte_count sys opcode_name [AddressingMode.BlockMove] argument2) % u32Mod
    { st with new_tree := st.new_tree ++ [node],
              current_address := (addr + arg_byte_count sys opcode_name [AddressingMode.StackRelativeIndirectIndexed] argument3) % u32Mod }
  | ParseExpression.OriginStatement n =>
    { st with new_tree := st.new_tree ++ [node], current_address := n.number }
  | ParseExpression.IncBinStatement _ file_size =>
    { st with new_tree := st.new_tree ++ [node],
              current_address := (st.current_address + file_size % u32Mod) % u32Mod }
  | ParseExpression.Label label_name =>
    { st with symbol_table := add_or_update_label st.symbol_table label_name st.current_address }
  | _ =>
    { st with new_tree := st.new_tree ++ [node] }

/-- `CollectLabelPass::do_pass` over a whole tree, starting from
address `0` and the given symbol table. -/
def collect_pass (sys : SystemDefinition) (table : SymbolTable) (parse_tree : List ParseNode) : CollectState :=
  parse_tree.foldl (collect_step sys) ⟨0, table, []⟩

/-- Rust `as u32` on an `i64`: the low 32 bits of the two's-complement
representation. -/
def int_to_u32 (i : Int) : Nat := (Int.emod i 4294967296).toNat

/-- The error record pass 2 pushes for an unresolved label (message
text abbreviated; no claim inspects it). -/
def label_not_found_error (identifier : String) (tok : Token) : ErrorMessage :=
  ⟨"Label " ++ identifier ++ " not found.", tok, ErrorSeverity.Error⟩

/-- The error record pass 2 pushes for an out-of-range branch
displacement (message text abbreviated; no claim inspects it). -/
def branch_too_far_error (identifier : String) (tok : Token) : ErrorMessage :=
  ⟨"Branch label " ++ identifier ++ " is too far away.", tok, ErrorSeverity.Error⟩

/-- State threaded through `ResolveLabelPass::do_pass`
(`resolve_label_pass.rs`). -/
structure ResolveState where
  current_address : Nat
  new_tree : List ParseNode
  error_messages : List ErrorMessage

/-- The operand size pass 2 chooses for an identifier argument: the
table-derived size under the candidate addressing modes, falling back
to the system `label_size`. -/
def resolve_argument_size (sys : SystemDefinition) (opcode_name : String) (modes : List AddressingMode) : ArgumentSize :=
  match find_instruction_argument_size sys opcode_name modes with
  | some size => size
  | none => sys.label_size

/-- Pass 2 on a resolvable identifier argument of a non-branch
instruction shape: the literal that replaces the identifier and its
byte count. -/
def resolve_ident_number (sys : SystemDefinition) (table : SymbolTable) (opcode_name identifier : String) (modes : List AddressingMode) : NumberLiteral × Nat :=
  let argument_size := resolve_argument_size sys opcode_name modes
  (⟨address_for table identifier, argument_size⟩, argument_size_to_byte_size argument_size)

/-- One iteration of the `for node in parse_tree` loop of
`ResolveLabelPass::do_pass`.  The `IndirectInstruction` and
`IndirectLongInstruction` arms reproduce the source exactly: both push
the original node before inspecting the argument and push again in
every inner branch, and the `IndirectLongInstruction` arm performs no
opcode-byte increment. -/
def resolve_step (sys : SystemDefinition) (table : SymbolTable) (st : ResolveState) (node : ParseNode) : ResolveState :=
  match node.expression with
  | ParseExpression.ImpliedInstruction _ =>
    { st with new_tree := st.new_tree ++ [node],
              current_address := (st.current_address + 1) % u32Mod }
  | ParseExpression.ImmediateInstruction opcode_name argument =>
    let addr := (st.current_address + 1) % u32Mod
    match argument with
    | ParseArgument.Identifier identifier =>
      if has_label table identifier then
        let (number, bs) := resolve_ident_number sys table opcode_name identifier [AddressingMode.Immediate]
        { current_address := (addr + bs) % u32Mod,
          new_tree := st.new_tree ++ [⟨node.start_token, ParseExpression.ImmediateInstruction opcode_name (ParseArgument.NumberLiteral number)⟩],
          error_messages := st.error_messages }
      else
        { current_address := addr,
          new_tree := st.new_tree ++ [node],
          error_messages := st.error_messages ++ [label_not_found_error identifier node.start_token] }
    | ParseArgument.NumberLiteral n =>
      { st with current_address := (addr + argument_size_to_byte_size n.argument_size) % u32Mod,
                new_tree := st.new_tree ++ [node] }
    | ParseArgument.Register _ =>
      { st with current_address := addr, new_tree := st.new_tree ++ [node] }
  | ParseExpression.SingleArgumentInstruction opcode_name argument =>
    let addr := (st.current_address + 1) % u32Mod
    match argument with
    | ParseArgument.Identifier identifier =>
      if has_label table identifier then
        let argument_size := resolve_argument_size sys opcode_name [AddressingMode.SingleArgument, AddressingMode.Relative]
        let bs := argument_size_to_byte_size argument_size
        let resolved : Nat × List ErrorMessage :=
          if is_branching_instruction sys opcode_name then
            match argument_size with
            | ArgumentSize.Word8 =>
              let temp_address : Int := (address_for table identifier : Int) - (((addr + bs) % u32Mod : Nat) : Int)
              if temp_address > 127 ∨ temp_address < -128 then
                (0, [branch_too_far_error identifier node.start_token])
              else
                (int_to_u32 temp_address &&& 0xFF, [])
            | ArgumentSize.Word16 =>
              let temp_address : Int := (address_for table identifier : Int) - (((addr + bs) % u32Mod : Nat) : Int)
              if temp_address > 32767 ∨ temp_address < -32768 then
                (0, [branch_too_far_error identifier node.start_token])
              else
                (int_to_u32 temp_address &&& 0xFFFF, [])
            | _ => (0, [])
          else (address_for table identifier, [])
        { current_address := (addr + bs) % u32Mod,
          new_tree := st.new_tree ++ [⟨node.start_token, ParseExpression.SingleArgumentInstruction opcode_name (ParseArgument.NumberLiteral ⟨resolved.1, argument_size⟩)⟩],
          error_messages := st.error_messages ++ resolved.2 }
      else
        { current_address := addr,
          new_tree := st.new_tree ++ [node],
          error_messages := st.error_messages ++ [label_not_found_error identifier node.start_token] }
    | ParseArgument.NumberLiteral n =>
      { st with current_address := (addr + argument_size_to_byte_size n.argument_size) % u32Mod,
                new_tree := st.new_tree ++ [node] }
    | ParseArgument.Register _ =>
      { st with current_address := addr, new_tree := st.new_tree ++ [node] }
  | ParseExpression.IndexedInstruction opcode_name argument1 argument2 =>
    let addr := (st.current_address + 1) % u32Mod
    match argument1 with
    | ParseArgument.Identifier identifier =>
      if has_label table identifier then
        let (number, bs) := resolve_ident_number sys table opcode_name identifier [AddressingMode.Indexed]
        { current_address := (addr + bs) % u32Mod,
          new_tree := st.new_tree ++ [⟨node.start_token, ParseExpression.IndexedInstruction opcode_name (ParseArgument.NumberLiteral number) argument2⟩],
          error_messages := st.error_messages }
      else
        { current_address := addr,
          new_tree := st.new_tree ++ [node],
          error_messages := st.error_messages ++ [label_not_found_error identifier node.start_token] }
    | ParseArgument.NumberLiteral n =>
      { st with current_address := (addr + argument_size_to_byte_size n.argument_size) % u32Mod,
                new_tree := st.new_tree ++ [node] }
    | ParseArgument.Register _ =>
      { st with current_address := addr, new_tree := st.new_tree ++ [node] }
  | ParseExpression.IndirectInstruction opcode_name argument =>
    -- source pushes the original node unconditionally here, then once
    -- more in every branch below
    let st := { st with new_tree := st.new_tree ++ [node] }
    let addr := (st.current_address + 1) % u32Mod
    match argument with
    | ParseArgument.Identifier identifier =>
      if has_label table identifier then
        let (number, bs) := resolve_ident_number sys table opcode_name identifier [AddressingMode.Indirect]
        { current_address := (addr + bs) % u32Mod,
          new_tree := st.new_tree ++ [⟨node.start_token, ParseExpression.IndirectInstruction opcode_name (ParseArgument.NumberLiteral number)⟩],
          error_messages := st.error_messages }
      else
        { current_address := addr,
          new_tree := st.new_tree ++ [node],
          error_messages := st.error_messages ++ [label_not_found_error identifier node.start_token] }
    | ParseArgument.NumberLiteral n =>
      { st with current_address := (addr + argument_size_to_byte_size n.argument_size) % u32Mod,
                new_tree := st.new_tree ++ [node] }
    | ParseArgument.Register _ =>
      { st with current_address := addr, new_tree := st.new_tree ++ [node] }
  | ParseExpression.IndirectLongInstruction opcode_name argument =>
    -- source pushes the original node unconditionally, pushes again in
    -- every branch, and never adds 1 for the opcode byte
    let st := { st with new_tree := st.new_tree ++ [node] }
    let addr := st.current_address
    match argument with
    | ParseArgument.Identifier identifier =>
      if has_label table identifier then
        let (number, bs) := resolve_ident_number sys table opcode_name identifier [AddressingMode.IndirectLong]
        { current_address := (addr + bs) % u32Mod,
          new_tree := st.new_tree ++ [⟨node.start_token, ParseExpression.IndirectLongInstruction opcode_name (ParseArgument.NumberLiteral number)⟩],
          error_messages := st.error_messages }
      else
        { current_address := addr,
          new_tree := st.new_tree ++ [node],
          error_messages := st.error_messages ++ [label_not_found_error identifier node.start_token] }
    | ParseArgument.NumberLiteral n =>
      { st with current_address := (addr + argument_size_to_byte_size n.argument_size) % u32Mod,
                new_tree := st.new_tree ++ [node] }
    | ParseArgument.Register _ =>
      { st with current_address := addr, new_tree := st.new_tree ++ [node] }
  | ParseExpression.IndexedIndirectInstruction opcode_name argument1 argument2 =>
    let addr := (st.current_address + 1) % u32Mod
    match argument1 with
    | ParseArgument.Identifier identifier =>
      if has_label table identifier then
        let (number, bs) := resolve_ident_number sys table opcode_name identifier [AddressingMode.IndexedIndirect]
        { current_address := (addr + bs) % u32Mod,
          new_tree := st.new_tree ++ [⟨node.start_token, ParseExpression.IndexedIndirectInstruction opcode_name (ParseArgument.NumberLiteral number) argument2⟩],
          error_messages := st.error_messages }
      else
        { current_address := addr,
          new_tree := st.new_tree ++ [node],
          error_messages := st.error_messages ++ [label_not_found_error identifier node.start_token] }
    | ParseArgument.NumberLiteral n =>
      { st with current_address := (addr + argument_size_to_byte_size n.argument_size) % u32Mod,
                new_tree := st.new_tree ++ [node] }
    | ParseArgument.Register _ =>
      { st with current_address := addr, new_tree := st.new_tree ++ [node] }
  | ParseExpression.IndirectIndexedInstruction opcode_name argument1 argument2 =>
    let addr := (st.current_address + 1) % u32Mod
    match argument1 with
    | ParseArgument.Identifier identifier =>
      if has_label table identifier then
        let (number, bs) := resolve_ident_number sys table opcode_name identifier [AddressingMode.IndirectIndexed]
        { current_address := (addr + bs) % u32Mod,
          new_tree := st.new_tree ++ [⟨node.start_token, ParseExpression.IndirectIndexedInstruction opcode_name (ParseArgument.NumberLiteral number) argument2⟩],
          error_messages := st.error_messages }
      else
        { current_address := addr,
          new_tree := st.new_tree ++ [node],
          error_messages := st.error_messages ++ [label_not_found_error identifier node.start_token] }
    | ParseArgument.NumberLiteral n =>
      { st with current_address := (addr + argument_size_to_byte_size n.argument_size) % u32Mod,
                new_tree := st.new_tree ++ [node] }
    | ParseArgument.Register _ =>
      { st with current_address := addr, new_tree := st.new_tree ++ [node] }
  | ParseExpression.IndirectIndexedLongInstruction opcode_name argument1 argument2 =>
    let addr := (st.current_address + 1) % u32Mod
    match argument1 with
    | ParseArgument.Identifier identifier =>
      if has_label table identifier then
        let (number, bs) := resolve_ident_number sys table opcode_name identifier [AddressingMode.IndirectIndexedLong]
        { current_address := (addr + bs) % u32Mod,
          new_tree := st.new_tree ++ [⟨node.start_token, ParseExpression.IndirectIndexedLongInstruction opcode_name (ParseArgument.NumberLiteral number) argument2⟩],
          error_messages := st.error_messages }
      else
        { current_address := addr,
          new_tree := st.new_tree ++ [node],
          error_messages := st.error_messages ++ [label_not_found_error identifier node.start_token] }
    | ParseArgument.NumberLiteral n =>
      { st with current_address := (addr + argument_size_to_byte_size n.argument_size) % u32Mod,
                new_tree := st.new_tree ++ [node] }
    | ParseArgument.Register _ =>
      { st with current_address := addr, new_tree := st.new_tree ++ [node] }
  | ParseExpression.BlockMoveInstruction _ argument1 argument2 =>
    let st := { st with new_tree := st.new_tree ++ [node] }
    let addr := (st.current_address + 1) % u32Mod
    let addr := match argument1 with
      | ParseArgument.NumberLiteral n => (addr + argument_size_to_byte_size n.argument_size) % u32Mod
      | _ => addr
    let addr := match argument2 with
      | ParseArgument.NumberLiteral n => (addr + argument_size_to_byte_size n.argument_size) % u32Mod
      | _ => addr
    { st with current_address := addr }
  | ParseExpression.StackRelativeIndirectIndexedInstruction opcode_name argument1 argument2 argument3 =>
    let addr := (st.current_address + 1) % u32Mod
    match argument1 with
    | ParseArgument.Identifier identifier =>
      if has_label table identifier then
        let (number, bs) := resolve_ident_number sys table opcode_name identifier [AddressingMode.StackRelativeIndirectIndexed]
        { current_address := (addr + bs) % u32Mod,
          new_tree := st.new_tree ++ [⟨node.start_token, ParseExpression.StackRelativeIndirectIndexedInstruction opcode_name (ParseArgument.NumberLiteral number) argument2 argument3⟩],
          error_messages := st.error_messages }
      else
        { current_address := addr,
          new_tree := st.new_tree ++ [node],
          error_messages := st.error_messages ++ [label_not_found_error identifier node.start_token] }
    | ParseArgument.NumberLiteral n =>
      { st with current_address := (addr + argument_size_to_byte_size n.argument_size) % u32Mod,
                new_tree := st.new_tree ++ [node] }
    | ParseArgument.Register _ =>
      { st with current_address := addr, new_tree := st.new_tree ++ [node] }
  | ParseExpression.OriginStatement n =>
    { st with current_address := n.number, new_tree := st.new_tree ++ [node] }
  | ParseExpression.IncBinStatement _ file_size =>
    { st with current_address := (st.current_address + file_size % u32Mod) % u32Mod,
              new_tree := st.new_tree ++ [node] }
  | _ =>
    { st with new_tree := st.new_tree ++ [node] }

/-- `ResolveLabelPass::do_pass` over a whole tree, starting from
address `0`. -/
def resolve_pass (sys : SystemDefinition) (table : SymbolTable) (parse_tree : List ParseNode) : ResolveState :=
  parse_tree.foldl (resolve_step sys table) ⟨0, [], []⟩

/-- Per-argument matching inside
`InstructionToStatementPass::find_suitable_instruction`
(`instruction_statement_pass.rs`): the first component is the table
entry's argument, the second the query argument.  A `NotStaticRegister`
in the table position falls into the `_ => continue` arm of the source
and hence matches anything (the opcode table never contains one). -/
def instruction_argument_matches : InstructionArgument → InstructionArgument → Bool
  | InstructionArgument.Number s, q => q = InstructionArgument.Number s
  | InstructionArgument.Numbers sizes, q =>
    match q with
    | InstructionArgument.Number number_size => sizes.contains number_size
    | _ => false
  | InstructionArgument.Register register_name, q =>
    match q with
    | InstructionArgument.NotStaticRegister possible_register => register_name = possible_register
    | _ => false
  | InstructionArgument.NotStaticRegister _, _ => true

/-- Table scan of
`InstructionToStatementPass::find_suitable_instruction`: first entry in
table order with the queried mnemonic, an addressing mode in the
candidate list, the same argument count, and element-wise matching
arguments. -/
def find_suitable_instruction_in (instrs : List InstructionInfo) (opcode_name : String) (possible_addressings : List AddressingMode) (possible_arguments : List InstructionArgument) : Option InstructionInfo :=
  match instrs with
  | [] => none
  | i :: rest =>
    if i.name = opcode_name ∧ i.addressing ∈ possible_addressings
        ∧ i.arguments.length = possible_arguments.length
        ∧ (List.zip i.arguments possible_arguments).all (fun p => instruction_argument_matches p.1 p.2)
    then some i
    else find_suitable_instruction_in rest opcode_name possible_addressings possible_arguments

/-- `find_suitable_instruction` on a system definition. -/
def find_suitable_instruction (sys : SystemDefinition) (opcode_name : String) (possible_addressings : List AddressingMode) (possible_arguments : List InstructionArgument) : Option InstructionInfo :=
  find_suitable_instruction_in sys.instructions opcode_name possible_addressings possible_arguments

/-- `InstructionToStatementPass::add_to_argument_list` (and the
argument-list part of `add_to_argument_list_capture_register`): the
query argument a parsed operand contributes, if any. -/
def query_of_argument : ParseArgument → Option InstructionArgument
  | ParseArgument.NumberLiteral number => some (InstructionArgument.Number number.argument_size)
  | ParseArgument.Register register_name => some (InstructionArgument.NotStaticRegister register_name)
  | ParseArgument.Identifier _ => none

/-- The argument list built by successive `add_to_argument_list` calls
(identifier operands contribute nothing). -/
def build_argument_list (arguments : List ParseArgument) : List InstructionArgument :=
  arguments.filterMap query_of_argument

/-- A selection-failure diagnostic of pass 3 (message text abbreviated;
no claim inspects it). -/
def selection_error (opcode_name : String) (tok : Token) : ErrorMessage :=
  ⟨"opcode " ++ opcode_name ++ " does not support this addressing mode.", tok, ErrorSeverity.Error⟩

/-- The register-operand diagnostic of pass 3 (message text
abbreviated; no claim inspects it). -/
def register_argument_error (register_name : String) (tok : Token) : ErrorMessage :=
  ⟨"addressing mode does not support register argument " ++ register_name ++ ".", tok, ErrorSeverity.Error⟩

/-- State threaded through `InstructionToStatementPass::do_pass`. -/
structure StatementState where
  new_tree : List ParseNode
  error_messages : List ErrorMessage

/-- Pass 3 on a one-operand instruction shape (`Indirect`,
`IndirectLong`, `Immediate`, `SingleArgument` all share this source
structure): literal operands query the table, register operands record
an error, identifier operands pass through. -/
def statement_single (sys : SystemDefinition) (st : StatementState) (node : ParseNode) (opcode_name : String) (modes : List AddressingMode) (argument : ParseArgument) : StatementState :=
  match argument with
  | ParseArgument.NumberLiteral number =>
    match find_suitable_instruction sys opcode_name modes [InstructionArgument.Number number.argument_size] with
    | some instruction =>
      { st with new_tree := st.new_tree ++ [⟨node.start_token, ParseExpression.FinalInstruction (FinalInstruction.SingleArgumentInstruction instruction argument)⟩] }
    | none =>
      { new_tree := st.new_tree ++ [node],
        error_messages := st.error_messages ++ [selection_error opcode_name node.start_token] }
  | ParseArgument.Register register_name =>
    { new_tree := st.new_tree ++ [node],
      error_messages := st.error_messages ++ [register_argument_error register_name node.start_token] }
  | ParseArgument.Identifier _ =>
    { st with new_tree := st.new_tree ++ [node] }

/-- Pass 3 on a two-operand shape resolved to a single-argument final
instruction (`Indexed`, `IndexedIndirect`, `IndirectIndexed`,
`IndirectIndexedLong`). -/
def statement_two (sys : SystemDefinition) (st : StatementState) (node : ParseNode) (opcode_name : String) (modes : List AddressingMode) (argument1 argument2 : ParseArgument) : StatementState :=
  match find_suitable_instruction sys opcode_name modes (build_argument_list [argument1, argument2]) with
  | some instruction =>
    { st with new_tree := st.new_tree ++ [⟨node.start_token, ParseExpression.FinalInstruction (FinalInstruction.SingleArgumentInstruction instruction argument1)⟩] }
  | none =>
    { new_tree := st.new_tree ++ [node],
      error_messages := st.error_messages ++ [selection_error opcode_name node.start_token] }

/-- One iteration of the `for node in parse_tree` loop of
`InstructionToStatementPass::do_pass`. -/
def statement_step (sys : SystemDefinition) (st : StatementState) (node : ParseNode) : StatementState :=
  match node.expression with
  | ParseExpression.ImpliedInstruction opcode_name =>
    match find_suitable_instruction sys opcode_name [AddressingMode.Implied] [] with
    | some instruction =>
      { st with new_tree := st.new_tree ++ [⟨node.start_token, ParseExpression.FinalInstruction (FinalInstruction.ImpliedInstruction instruction)⟩] }
    | none =>
      { new_tree := st.new_tree ++ [node],
        error_messages := st.error_messages ++ [selection_error opcode_name node.start_token] }
  | ParseExpression.ImmediateInstruction opcode_name argument =>
    statement_single sys st node opcode_name [AddressingMode.Immediate] argument
  | ParseExpression.SingleArgumentInstruction opcode_name argument =>
    statement_single sys st node opcode_name [AddressingMode.SingleArgument, AddressingMode.Relative] argument
  | ParseExpression.IndexedInstruction opcode_name argument1 argument2 =>
    statement_two sys st node opcode_name [AddressingMode.Indexed] argument1 argument2
  | ParseExpression.IndirectInstruction opcode_name argument =>
    statement_single sys st node opcode_name [AddressingMode.Indirect] argument
  | ParseExpression.IndirectLongInstruction opcode_name argument =>
    statement_single sys st node opcode_name [AddressingMode.IndirectLong] argument
  | ParseExpression.IndexedIndirectInstruction opcode_name argument1 argument2 =>
    statement_two sys st node opcode_name [AddressingMode.IndexedIndirect] argument1 argument2
  | ParseExpression.IndirectIndexedInstruction opcode_name argument1 argument2 =>
    statement_two sys st node opcode_name [AddressingMode.IndirectIndexed] argument1 argument2
  | ParseExpression.IndirectIndexedLongInstruction opcode_name argument1 argument2 =>
    statement_two sys st node opcode_name [AddressingMode.IndirectIndexedLong] argument1 argument2
  | ParseExpression.BlockMoveInstruction opcode_name argument1 argument2 =>
    match find_suitable_instruction sys opcode_name [AddressingMode.BlockMove] (build_argument_list [argument1, argument2]) with
    | some instruction =>
      { st with new_tree := st.new_tree ++ [⟨node.start_token, ParseExpression.FinalInstruction (FinalInstruction.TwoArgumentInstruction instruction argument1 argument2)⟩] }
    | none =>
      { new_tree := st.new_tree ++ [node],
        error_messages := st.error_messages ++ [selection_error opcode_name node.start_token] }
  | ParseExpression.StackRelativeIndirectIndexedInstruction opcode_name argument1 argument2 argument3 =>
    match find_suitable_instruction sys opcode_name [AddressingMode.StackRelativeIndirectIndexed] (build_argument_list [argument1, argument2, argument3]) with
    | some instruction =>
      { st with new_tree := st.new_tree ++ [⟨node.start_token, ParseExpression.FinalInstruction (FinalInstruction.SingleArgumentInstruction instruction argument1)⟩] }
    | none =>
      { new_tree := st.new_tree ++ [node],
        error_messages := st.error_messages ++ [selection_error opcode_name node.start_token] }
  | _ =>
    { st with new_tree := st.new_tree ++ [node] }

/-- `InstructionToStatementPass::do_pass` over a whole tree. -/
def statement_pass (sys : SystemDefinition) (parse_tree : List ParseNode) : StatementState :=
  parse_tree.foldl (statement_step sys) ⟨[], []⟩

/-- The three address-translation functions of `output_writer.rs`; the
Rust code stores one of them as a function pointer. -/
inductive MapFunction where
  | map_default
  | map_snes_lorom
  | map_snes_hirom
deriving DecidableEq, Repr

/-- `map_default` / `map_snes_lorom` / `map_snes_hirom` from
`output_writer.rs`. -/
def apply_map : MapFunction → Nat → Nat
  | MapFunction.map_default, value => value
  | MapFunction.map_snes_lorom, value => ((value &&& 0x7F0000) >>> 1) ||| (value &&& 0x7FFF)
  | MapFunction.map_snes_hirom, value => value &&& 0x3FFFFF

/-- What the emitter does to the output sink, in order: seeks and raw
byte writes. -/
inductive OutputEvent where
  | write (bytes : List Nat)
  | seek (position : Nat)
deriving DecidableEq, Repr

/-- `OutputWriter::write_number_literal`: the bytes of one literal in
the system's endianness, following the `byteorder` crate's
`write_u8`/`write_u16`/`write_u24`/`write_u32` (values are truncated to
the declared width, little-endian writes the low byte first). -/
def write_number_literal (is_big_endian : Bool) (number : NumberLiteral) : List Nat :=
  let n := number.number
  if is_big_endian then
    match number.argument_size with
    | ArgumentSize.Word8 => [n % 256]
    | ArgumentSize.Word16 => [n / 256 % 256, n % 256]
    | ArgumentSize.Word24 => [n / 65536 % 256, n / 256 % 256, n % 256]
    | ArgumentSize.Word32 => [n / 16777216 % 256, n / 65536 % 256, n / 256 % 256, n % 256]
  else
    match number.argument_size with
    | ArgumentSize.Word8 => [n % 256]
    | ArgumentSize.Word16 => [n % 256, n / 256 % 256]
    | ArgumentSize.Word24 => [n % 256, n / 256 % 256, n / 65536 % 256]
    | ArgumentSize.Word32 => [n % 256, n / 256 % 256, n / 65536 % 256, n / 16777216 % 256]

/-- `OutputWriter::handle_final_instruction`: opcode byte, then the
literal operands; register and identifier operands contribute no
bytes. -/
def handle_final_instruction (is_big_endian : Bool) : FinalInstruction → List OutputEvent
  | FinalInstruction.ImpliedInstruction instruction =>
    [OutputEvent.write [instruction.opcode % 256]]
  | FinalInstruction.SingleArgumentInstruction instruction argument =>
    OutputEvent.write [instruction.opcode % 256] ::
      (match argument with
       | ParseArgument.NumberLiteral number => [OutputEvent.write (write_number_literal is_big_endian number)]
       | _ => [])
  | FinalInstruction.TwoArgumentInstruction instruction argument1 argument2 =>
    OutputEvent.write [instruction.opcode % 256] ::
      (match argument1 with
       | ParseArgument.NumberLiteral number => [OutputEvent.write (write_number_literal is_big_endian number)]
       | _ => []) ++
      (match argument2 with
       | ParseArgument.NumberLiteral number => [OutputEvent.write (write_number_literal is_big_endian number)]
       | _ => [])

/-- State threaded through `OutputWriter::write`: the active map
function and the sink operations issued so far. -/
structure WriterState where
  map_function : MapFunction
  events : List OutputEvent
deriving DecidableEq, Repr

/-- One iteration of the `for node in parse_tree` loop of
`OutputWriter::write`.  `fs` models the filesystem consulted by
`do_incbin` (path to byte contents). -/
def writer_step (sys : SystemDefinition) (fs : String → List Nat) (st : WriterState) (node : ParseNode) : WriterState :=
  match node.expression with
  | ParseExpression.FinalInstruction final_instruction =>
    { st with events := st.events ++ handle_final_instruction sys.is_big_endian final_instruction }
  | ParseExpression.IncBinStatement filename _ =>
    { st with events := st.events ++ [OutputEvent.write (fs filename)] }
  | ParseExpression.OriginStatement number =>
    { st with events := st.events ++ [OutputEvent.seek (apply_map st.map_function number.number)] }
  | ParseExpression.SnesMapStatement map_mode =>
    match map_mode with
    | SnesMap.LoRom => { st with map_function := MapFunction.map_snes_lorom }
    | SnesMap.HiRom => { st with map_function := MapFunction.map_snes_hirom }
  | _ => st

/-- `OutputWriter::write` over a whole tree.  `OutputWriter::new`
initialises `map_function` with `map_default`. -/
def write_output (sys : SystemDefinition) (fs : String → List Nat) (parse_tree : List ParseNode) : List OutputEvent :=
  (parse_tree.foldl (writer_step sys fs) ⟨MapFunction.map_default, []⟩).events

/-- The byte stream of an event list, ignoring seeks: what a freshly
created file receives when no origin statement intervenes. -/
def written_bytes (events : List OutputEvent) : List Nat :=
  events.foldl (fun acc e => match e with
    | OutputEvent.write bytes => acc ++ bytes
    | OutputEvent.seek _ => acc) []

/-- Record `bytes` at consecutive offsets starting at `position`;
newest writes sit at the head of the association list. -/
def write_bytes_at (file : List (Nat × Nat)) (position : Nat) (bytes : List Nat) : List (Nat × Nat) :=
  match bytes with
  | [] => file
  | b :: rest => write_bytes_at ((position, b) :: file) (position + 1) rest

/-- Replay an event list against a seekable sink starting at position
`position` over the file contents `file`. -/
def run_events (events : List OutputEvent) (position : Nat) (file : List (Nat × Nat)) : List (Nat × Nat) :=
  match events with
  | [] => file
  | OutputEvent.seek p :: rest => run_events rest p file
  | OutputEvent.write bytes :: rest =>
    run_events rest (position + bytes.length) (write_bytes_at file position bytes)

/-- The byte a replayed file holds at `offset` (last write wins). -/
def file_byte (file : List (Nat × Nat)) (offset : Nat) : Option Nat :=
  (List.find? (fun p => p.1 = offset) file).map (fun p => p.2)

/-- Character classes from `lexer.rs`. -/
def is_ascii_numeric (current_char : Char) : Bool :=
  '0' ≤ current_char ∧ current_char ≤ '9'

/-- `is_ascii_binary_digit` from `lexer.rs`. -/
def is_ascii_binary_digit (current_char : Char) : Bool :=
  current_char = '0' ∨ current_char = '1'

/-- `is_ascii_hex_digit` from `lexer.rs`. -/
def is_ascii_hex_digit (current_char : Char) : Bool :=
  is_ascii_numeric current_char ∨ ('a' ≤ current_char ∧ current_char ≤ 'f')
    ∨ ('A' ≤ current_char ∧ current_char ≤ 'F')

/-- `is_ascii_alphanumeric` from `lexer.rs`. -/
def is_ascii_alphanumeric (current_char : Char) : Bool :=
  is_ascii_numeric current_char ∨ ('A' ≤ current_char ∧ current_char ≤ 'Z')
    ∨ ('a' ≤ current_char ∧ current_char ≤ 'z')

/-- The mutable scanning state of `Lexer` from `lexer.rs` (the
`source_file` string is constant and omitted). -/
structure LexerState where
  file_content : List Char
  current_char : Nat
  line : Nat
  column : Nat
  line_start : Nat
deriving DecidableEq, Repr

/-- The state `Lexer::from_file` builds once the file contents are
read: position `0`, line `1`, column `1`. -/
def lexer_from_content (file_content : List Char) : LexerState :=
  ⟨file_content, 0, 1, 1, 0⟩

/-- `Lexer::reset`: note `column` is set to `0` here while
`from_file` initialises it to `1`. -/
def reset (st : LexerState) : LexerState :=
  { st with line := 1, column := 0, current_char := 0, line_start := 0 }

/-- `Lexer::peek`. -/
def peek (st : LexerState) : Option Char :=
  st.file_content[st.current_char]?

/-- `Lexer::peek_lookahead`. -/
def peek_lookahead (st : LexerState) (k : Nat) : Option Char :=
  st.file_content[st.current_char + k]?

/-- The state change of `Lexer::consume`: advance one character and
one column when characters remain, else do nothing. -/
def advance (st : LexerState) : LexerState :=
  if st.current_char < st.file_content.length then
    { st with current_char := st.current_char + 1, column := st.column + 1 }
  else st

/-- `Lexer::consume`: the consumed character together with the new
state. -/
def consume (st : LexerState) : Option Char × LexerState :=
  (peek st, advance st)

/-- `Lexer::do_end_of_line`: bump the line, reset the column (the
`consume` of the newline brings it to `1`), record the line start. -/
def do_end_of_line (st : LexerState) : LexerState :=
  let st := { st with line := st.line + 1, column := 0 }
  let st := advance st
  { st with line_start := st.current_char }

theorem advance_file_content (st : LexerState) : (advance st).file_content = st.file_content := by
  unfold advance; split <;> rfl

theorem advance_pos_of_lt (st : LexerState) (h : st.current_char < st.file_content.length) :
    (advance st).current_char = st.current_char + 1 := by
  unfold advance; rw [if_pos h]

theorem peek_eq_some_iff (st : LexerState) (c : Char) :
    peek st = some c ↔ ∃ h : st.current_char < st.file_content.length, st.file_content[st.current_char] = c := by
  unfold peek; exact List.getElem?_eq_some

theorem peek_lt_of_some (st : LexerState) (c : Char) (h : peek st = some c) :
    st.current_char < st.file_content.length := by
  obtain ⟨h1, _⟩ := (peek_eq_some_iff st c).mp h
  exact h1

theorem do_end_of_line_file_content (st : LexerState) :
    (do_end_of_line st).file_content = st.file_content := by
  unfold do_end_of_line advance; dsimp only; split <;> rfl

theorem do_end_of_line_pos_of_lt (st : LexerState) (h : st.current_char < st.file_content.length) :
    (do_end_of_line st).current_char = st.current_char + 1 := by
  unfold do_end_of_line advance; dsimp only; rw [if_pos h]

/-- `Lexer::eat_whitespaces`: skip whitespace, lines counted through
`do_end_of_line` (Rust uses Unicode `char::is_whitespace`; over the
ASCII inputs of this assembler it agrees with `Char.isWhitespace`). -/
def eat_whitespaces (st : LexerState) : LexerState :=
  match h : peek st with
  | none => st
  | some current_char =>
    if current_char = '\n' then eat_whitespaces (do_end_of_line st)
    else if current_char.isWhitespace then eat_whitespaces (advance st)
    else st
termination_by st.file_content.length - st.current_char
decreasing_by
  · have hlt := peek_lt_of_some st _ h
    rw [do_end_of_line_file_content, do_end_of_line_pos_of_lt st hlt]
    omega
  · have hlt := peek_lt_of_some st _ h
    rw [advance_file_content, advance_pos_of_lt st hlt]
    omega

/-- The inner `while` of `Lexer::eat_comment`: consume through the end
of the line (the newline is handled by `do_end_of_line`, which ends the
loop). -/
def skip_to_eol (st : LexerState) : LexerState :=
  match h : peek st with
  | none => st
  | some current_char =>
    if current_char = '\n' then do_end_of_line st
    else skip_to_eol (advance st)
termination_by st.file_content.length - st.current_char
decreasing_by
  have hlt := peek_lt_of_some st _ h
  rw [advance_file_content, advance_pos_of_lt st hlt]
  omega

theorem skip_to_eol_file_content (st : LexerState) :
    (skip_to_eol st).file_content = st.file_content := by
  induction st using skip_to_eol.induct with
  | case1 x h =>
    rw [skip_to_eol.eq_def]; split
    · rfl
    · simp_all
  | case2 x h =>
    have hlt := peek_lt_of_some x _ h
    rw [skip_to_eol.eq_def]; split
    · simp_all
    · split
      · exact do_end_of_line_file_content x
      · simp_all
  | case3 x c h hne ih =>
    rw [skip_to_eol.eq_def]; split
    · simp_all
    · split
      · rename_i cc heq hcc
        rw [h] at heq
        injection heq with hce
        exact absurd (hce.trans hcc) hne
      · rw [ih, advance_file_content]

theorem skip_to_eol_pos_mono (st : LexerState) :
    st.current_char ≤ (skip_to_eol st).current_char := by
  induction st using skip_to_eol.induct with
  | case1 x h =>
    rw [skip_to_eol.eq_def]; split
    · omega
    · simp_all
  | case2 x h =>
    have hlt := peek_lt_of_some x _ h
    rw [skip_to_eol.eq_def]; split
    · omega
    · split
      · rw [do_end_of_line_pos_of_lt x hlt]; omega
      · simp_all
  | case3 x c h hne ih =>
    have hlt := peek_lt_of_some x _ h
    have h1 := advance_pos_of_lt x hlt
    rw [skip_to_eol.eq_def]; split
    · omega
    · split
      · rename_i cc heq hcc
        rw [h] at heq
        injection heq with hce
        exact absurd (hce.trans hcc) hne
      · omega

theorem skip_to_eol_pos_strict (st : LexerState) (c : Char) (h : peek st = some c) :
    st.current_char < (skip_to_eol st).current_char := by
  have hlt := peek_lt_of_some st c h
  rw [skip_to_eol.eq_def]
  split
  · simp_all
  · split
    · rw [do_end_of_line_pos_of_lt st hlt]; omega
    · have h1 := advance_pos_of_lt st hlt
      have h2 := skip_to_eol_pos_mono (advance st)
      omega

/-- The outer `while` of `Lexer::eat_comment`: while a `//` comment
starts here, consume it through end of line. -/
def eat_comment_loop (st : LexerState) : LexerState :=
  match h : peek st with
  | some first_char =>
    if first_char = '/' then
      match peek_lookahead st 1 with
      | some second_char =>
        if second_char = '/' then eat_comment_loop (skip_to_eol st)
        else st
      | none => st
    else st
  | none => st
termination_by st.file_content.length - st.current_char
decreasing_by
  have hlt := peek_lt_of_some st _ h
  have h2 := skip_to_eol_pos_strict st _ h
  rw [skip_to_eol_file_content]
  omega

/-- `Lexer::eat_comment` (it finishes with another
`eat_whitespaces`). -/
def eat_comment (st : LexerState) : LexerState :=
  eat_whitespaces (eat_comment_loop st)

/-- The accumulation loops shared by identifier, string and number
scanning in `lexer.rs`: push consumed characters while the class
predicate holds. -/
def scan_chars (pred : Char → Bool) (st : LexerState) (acc : List Char) : LexerState × List Char :=
  match h : peek st with
  | none => (st, acc)
  | some current_char =>
    if pred current_char then scan_chars pred (advance st) (acc ++ [current_char])
    else (st, acc)
termination_by st.file_content.length - st.current_char
decreasing_by
  have hlt := peek_lt_of_some st _ h
  rw [advance_file_content, advance_pos_of_lt st hlt]
  omega

/-- `Lexer::is_keyword`. -/
def is_keyword (identifier : String) : Option TokenType :=
  if identifier = "include" then some TokenType.KeywordInclude
  else if identifier = "incbin" then some TokenType.KeywordIncbin
  else if identifier = "origin" then some TokenType.KeywordOrigin
  else if identifier = "snesmap" then some TokenType.KeywordSnesMap
  else none

/-- `Lexer::is_opcode`: the identifier names some opcode-table
entry. -/
def is_opcode (sys : SystemDefinition) (identifier : String) : Bool :=
  sys.instructions.any (fun instruction => instruction.name = identifier)

/-- `Lexer::is_register`. -/
def is_register (sys : SystemDefinition) (identifier : String) : Bool :=
  sys.registers.any (fun register => register = identifier)

/-- `Lexer::parse_identifier_or_similar`; `first` is the character the
caller peeked (consumed here, as in the source). -/
def parse_identifier_or_similar (sys : SystemDefinition) (st : LexerState) (first : Char) : Token × LexerState :=
  let context_start := st.line_start
  let start_column := st.column
  let (st, chars) := scan_chars (fun c => is_ascii_alphanumeric c || c = '_') (advance st) [first]
  let end_column := st.column
  let parsed_identifier := String.mk chars
  let ttype := match is_keyword parsed_identifier with
    | some keyword => keyword
    | none =>
      if is_opcode sys parsed_identifier then TokenType.Opcode parsed_identifier
      else if is_register sys parsed_identifier then TokenType.Register parsed_identifier
      else TokenType.Identifier parsed_identifier
  (⟨ttype, st.line, start_column, end_column, context_start⟩, st)

/-- `Lexer::token_invalid`. -/
def token_invalid (st : LexerState) : Token × LexerState :=
  let context_start := st.line_start
  let invalid_char := match peek st with
    | some result => result
    | none => ' '
  let st := advance st
  let start_column := st.column - 1
  let end_column := st.column
  (⟨TokenType.Invalid invalid_char, st.line, start_column, end_column, context_start⟩, st)

/-- `Lexer::token_eof`. -/
def token_eof (st : LexerState) : Token × LexerState :=
  (⟨TokenType.EndOfFile, st.line, st.column, st.column, st.line_start⟩, st)

/-- `Lexer::new_simple_token`. -/
def new_simple_token (st : LexerState) (ttype : TokenType) : Token × LexerState :=
  let context_start := st.line_start
  let start_column := st.column
  let st := advance st
  (⟨ttype, st.line, start_column, st.column, context_start⟩, st)

/-- `Lexer::parse_string_literal`. -/
def parse_string_literal (st : LexerState) : Token × LexerState :=
  let context_start := st.line_start
  let start_column := st.column
  let st := advance st
  let (st, parsed_string) := scan_chars (fun c => c ≠ '"') st []
  match peek st with
  | some result =>
    if result = '"' then
      let st := advance st
      (⟨TokenType.StringLiteral (String.mk parsed_string), st.line, start_column, st.column, context_start⟩, st)
    else token_invalid st
  | none => token_invalid st

/-- The value of a digit character, as `u32::from_str_radix` computes
it for digits valid in the radix. -/
def digit_val (c : Char) : Nat :=
  if is_ascii_numeric c then c.toNat - '0'.toNat
  else if 'a' ≤ c ∧ c ≤ 'f' then c.toNat - 'a'.toNat + 10
  else if 'A' ≤ c ∧ c ≤ 'F' then c.toNat - 'A'.toNat + 10
  else 0

/-- The numeric value of a digit string. -/
def digits_value (radix : Nat) (digits : List Char) : Nat :=
  digits.foldl (fun acc c => acc * radix + digit_val c) 0

/-- Modelled on `u32::from_str_radix` of the Rust standard library for
digit strings that are valid in the radix: `Err` (here `none`) exactly
on the empty string and on values outside the `u32` range. -/
def from_str_radix (digits : List Char) (radix : Nat) : Option Nat :=
  if digits.isEmpty then none
  else if digits_value radix digits < u32Mod then some (digits_value radix digits)
  else none

/-- The `Ok`-or-`0` pattern every number parser of `lexer.rs` applies
to the `from_str_radix` result. -/
def number_or_zero (parsed : Option Nat) : Nat :=
  match parsed with
  | some result => result
  | none => 0

/-- The digit-count thresholds of `Lexer::parse_hex_number`. -/
def hex_argument_size (parsed_length : Nat) : ArgumentSize :=
  if parsed_length > 6 then ArgumentSize.Word32
  else if parsed_length > 4 then ArgumentSize.Word24
  else if parsed_length > 2 then ArgumentSize.Word16
  else ArgumentSize.Word8

/-- `Lexer::parse_hex_number` (the `$` is consumed first). -/
def parse_hex_number (st : LexerState) : Token × LexerState :=
  let context_start := st.line_start
  let start_column := st.column
  let st := advance st
  let (st, parsed_number) := scan_chars is_ascii_hex_digit st []
  let end_column := st.column
  let result_number := number_or_zero (from_str_radix parsed_number 16)
  let argument_size := hex_argument_size parsed_number.length
  (⟨TokenType.NumberLiteral ⟨result_number, argument_size⟩, st.line, start_column, end_column, context_start⟩, st)

/-- The digit-count thresholds of `Lexer::parse_binary_number`. -/
def binary_argument_size (parsed_length : Nat) : ArgumentSize :=
  if parsed_length > 24 then ArgumentSize.Word32
  else if parsed_length > 16 then ArgumentSize.Word24
  else if parsed_length > 8 then ArgumentSize.Word16
  else ArgumentSize.Word8

/-- `Lexer::parse_binary_number` (the `%` is consumed first). -/
def parse_binary_number (st : LexerState) : Token × LexerState :=
  let context_start := st.line_start
  let start_column := st.column
  let st := advance st
  let (st, parsed_number) := scan_chars is_ascii_binary_digit st []
  let end_column := st.column
  let result_number := number_or_zero (from_str_radix parsed_number 2)
  let argument_size := binary_argument_size parsed_number.length
  (⟨TokenType.NumberLiteral ⟨result_number, argument_size⟩, st.line, start_column, end_column, context_start⟩, st)

/-- `Lexer::parse_number` (decimal; `first` is the digit the caller
peeked, consumed here as in the source; the size comes from the
magnitude). -/
def parse_number (st : LexerState) (first : Char) : Token × LexerState :=
  let context_start := st.line_start
  let start_column := st.column
  let (st, parsed_number) := scan_chars is_ascii_numeric (advance st) [first]
  let end_column := st.column
  let result_number := number_or_zero (from_str_radix parsed_number 10)
  let argument_size := number_to_argument_size result_number
  (⟨TokenType.NumberLiteral ⟨result_number, argument_size⟩, st.line, start_column, end_column, context_start⟩, st)

/-- `Lexer::parse_token`: dispatch on the peeked character, in source
order. -/
def parse_token (sys : SystemDefinition) (st : LexerState) (current_char : Char) : Token × LexerState :=
  if ('a' ≤ current_char ∧ current_char ≤ 'z') ∨ ('A' ≤ current_char ∧ current_char ≤ 'Z') ∨ current_char = '_' then
    parse_identifier_or_similar sys st current_char
  else if current_char = '"' then parse_string_literal st
  else if current_char = '#' then new_simple_token st TokenType.Immediate
  else if current_char = '$' then parse_hex_number st
  else if current_char = ',' then new_simple_token st TokenType.Comma
  else if current_char = '(' then new_simple_token st TokenType.LeftParen
  else if current_char = ')' then new_simple_token st TokenType.RightParen
  else if current_char = '[' then new_simple_token st TokenType.LeftBracket
  else if current_char = ']' then new_simple_token st TokenType.RightBracket
  else if current_char = '%' then parse_binary_number st
  else if current_char = ':' then new_simple_token st TokenType.Colon
  else if is_ascii_numeric current_char then parse_number st current_char
  else token_invalid st

/-- `Lexer::get_next_token`. -/
def get_next_token (sys : SystemDefinition) (st : LexerState) : Token × LexerState :=
  let st := eat_whitespaces st
  let st := eat_comment st
  match peek st with
  | none => token_eof st
  | some current_char => parse_token sys st current_char

/-- Advancing the lexer over `n` tokens. -/
def lex_skip (sys : SystemDefinition) (st : LexerState) : Nat → LexerState
  | 0 => st
  | n + 1 => lex_skip sys (get_next_token sys st).2 n

/-- `Lexer::lookahead` for `times ≥ 1`: snapshot the positional state,
take `times` tokens, restore; the result is the `times`-th upcoming
token and the state is unchanged. -/
def lookahead (sys : SystemDefinition) (st : LexerState) (times : Nat) : Token :=
  (get_next_token sys (lex_skip sys st (times - 1))).1

/-! ## Concrete programs used by the claim theorems -/

/-- An `lda ($00)` indirect instruction node. -/
def indirectLdaNode : ParseNode :=
  ⟨dummyToken, ParseExpression.IndirectInstruction "lda" (ParseArgument.NumberLiteral ⟨0, ArgumentSize.Word8⟩)⟩

/-- An `lda [$00]` indirect-long instruction node. -/
def indirectLongLdaNode : ParseNode :=
  ⟨dummyToken, ParseExpression.IndirectLongInstruction "lda" (ParseArgument.NumberLiteral ⟨0, ArgumentSize.Word8⟩)⟩

/-- An `lda #k` immediate instruction node with an identifier
argument. -/
def immediateLdaLabelNode : ParseNode :=
  ⟨dummyToken, ParseExpression.ImmediateInstruction "lda" (ParseArgument.Identifier "k")⟩

/-- The parse tree of `bra target / nop / nop / target: / nop`. -/
def braProgram : List ParseNode :=
  [⟨dummyToken, ParseExpression.SingleArgumentInstruction "bra" (ParseArgument.Identifier "target")⟩,
   ⟨dummyToken, ParseExpression.ImpliedInstruction "nop"⟩,
   ⟨dummyToken, ParseExpression.ImpliedInstruction "nop"⟩,
   ⟨dummyToken, ParseExpression.Label "target"⟩,
   ⟨dummyToken, ParseExpression.ImpliedInstruction "nop"⟩]

/-- Pass 1 on the forward-branch program. -/
def braPass1 : CollectState := collect_pass SNES_CPU [] braProgram

/-- Pass 2 on the forward-branch program. -/
def braPass2 : ResolveState := resolve_pass SNES_CPU braPass1.symbol_table braPass1.new_tree

/-- Pass 3 on the forward-branch program. -/
def braPass3 : StatementState := statement_pass SNES_CPU braPass2.new_tree

/-- An empty model filesystem for programs without `incbin`. -/
def emptyFs : String → List Nat := fun _ => []

/-- The already-selected `lda #$01` final instruction (table entry
`lda` / `Immediate` / opcode `0xA9`). -/
def ldaImmediate01Node : ParseNode :=
  ⟨dummyToken, ParseExpression.FinalInstruction (FinalInstruction.SingleArgumentInstruction
    ⟨"lda", AddressingMode.Immediate, 0xA9, [InstructionArgument.Numbers [ArgumentSize.Word8, ArgumentSize.Word16]]⟩
    (ParseArgument.NumberLiteral ⟨1, ArgumentSize.Word8⟩))⟩

/-- The final tree of `snesmap lorom / origin o / lda #$01`. -/
def loromProgram (o : Nat) : List ParseNode :=
  [⟨dummyToken, ParseExpression.SnesMapStatement SnesMap.LoRom⟩,
   ⟨dummyToken, ParseExpression.OriginStatement ⟨o, ArgumentSize.Word24⟩⟩,
   ldaImmediate01Node]

/-! ## Arithmetic bridges between the masking the code performs and
the `mod` form the spec states -/

theorem and_255_eq_mod (n : Nat) : n &&& 0xFF = n % 256 :=
  Nat.and_pow_two_sub_one_eq_mod n 8

theorem and_65535_eq_mod (n : Nat) : n &&& 0xFFFF = n % 65536 :=
  Nat.and_pow_two_sub_one_eq_mod n 16

theorem shiftRight8_eq_div (n : Nat) : n >>> 8 = n / 256 :=
  Nat.shiftRight_eq_div_pow n 8

theorem shiftRight16_eq_div (n : Nat) : n >>> 16 = n / 65536 :=
  Nat.shiftRight_eq_div_pow n 16

theorem shiftRight24_eq_div (n : Nat) : n >>> 24 = n / 16777216 :=
  Nat.shiftRight_eq_div_pow n 24

/-! ## Evaluation lemmas for the lexer loops -/

theorem peek_eq_head_drop (st : LexerState) :
    peek st = (List.drop st.current_char st.file_content).head? := by
  unfold peek
  rcases h : List.drop st.current_char st.file_content with _ | ⟨c, rest⟩
  · have : st.file_content.length ≤ st.current_char := by
      have := congrArg List.length h
      simp [List.length_drop] at this
      omega
    simp [List.getElem?_eq_none this]
  · have h0 : (List.drop st.current_char st.file_content)[0]? = some c := by
      rw [h]; simp
    rw [List.getElem?_drop] at h0
    simpa using h0

theorem eat_whitespaces_eq_self (st : LexerState) (c : Char)
    (h : peek st = some c) (h1 : c ≠ '\n') (h2 : c.isWhitespace = false) :
    eat_whitespaces st = st := by
  rw [eat_whitespaces.eq_def]
  split
  · rfl
  · rename_i cc heq
    rw [h] at heq
    injection heq with hcc
    subst hcc
    simp [h1, h2]

theorem eat_comment_loop_eq_self (st : LexerState) (c : Char)
    (h : peek st = some c) (hc : c ≠ '/') :
    eat_comment_loop st = st := by
  rw [eat_comment_loop.eq_def]
  split
  · rename_i cc heq
    rw [h] at heq
    injection heq with hcc
    subst hcc
    simp [hc]
  · rfl

theorem eat_comment_eq_self (st : LexerState) (c : Char)
    (h : peek st = some c) (h1 : c ≠ '\n') (h2 : c.isWhitespace = false) (hc : c ≠ '/') :
    eat_comment st = st := by
  unfold eat_comment
  rw [eat_comment_loop_eq_self st c h hc, eat_whitespaces_eq_self st c h h1 h2]

theorem get_next_token_eq_parse_token (sys : SystemDefinition) (st : LexerState) (c : Char)
    (h : peek st = some c) (h1 : c ≠ '\n') (h2 : c.isWhitespace = false) (hc : c ≠ '/') :
    get_next_token sys st = parse_token sys st c := by
  unfold get_next_token
  simp only [eat_whitespaces_eq_self st c h h1 h2, eat_comment_eq_self st c h h1 h2 hc, h]

theorem scan_chars_spec (pred : Char → Bool) :
    ∀ (ds : List Char) (st : LexerState) (acc rest : List Char),
      List.drop st.current_char st.file_content = ds ++ rest →
      (∀ c ∈ ds, pred c = true) →
      (∀ r ∈ rest.head?, pred r = false) →
      scan_chars pred st acc =
        (⟨st.file_content, st.current_char + ds.length, st.line, st.column + ds.length, st.line_start⟩, acc ++ ds)
  | [], st, acc, rest, hdrop, _, hrest => by
    simp only [List.nil_append] at hdrop
    have hpk : peek st = rest.head? := by rw [peek_eq_head_drop, hdrop]
    rw [scan_chars.eq_def]
    split
    · cases st; simp
    · rename_i cc heq
      have hpr : pred cc = false := by
        apply hrest
        rw [← hpk, heq]; simp
      cases st; simp [hpr]
  | d :: ds2, st, acc, rest, hdrop, hds, hrest => by
    have hpk : peek st = some d := by
      rw [peek_eq_head_drop, hdrop]; simp
    have hlt : st.current_char < st.file_content.length := peek_lt_of_some st d hpk
    have hpd : pred d = true := hds d (by simp)
    have hdrop2 : List.drop (advance st).current_char (advance st).file_content = ds2 ++ rest := by
      rw [advance_file_content, advance_pos_of_lt st hlt]
      have ht := congrArg List.tail hdrop
      rwa [List.tail_drop, List.cons_append, List.tail_cons] at ht
    have ih := scan_chars_spec pred ds2 (advance st) (acc ++ [d]) rest hdrop2
      (fun c hcm => hds c (by simp [hcm])) hrest
    rw [scan_chars.eq_def]
    split
    · rename_i heq
      rw [hpk] at heq
      exact absurd heq (by simp)
    · rename_i cc heq
      rw [hpk] at heq
      injection heq with hcc
      subst hcc
      rw [if_pos hpd, ih]
      unfold advance
      rw [if_pos hlt]
      simp [List.append_assoc]
      omega

/-! ## Spec-side formulation of the pass-3 matcher (for the
refinement claim about `find_suitable_instruction`) -/

/-- Written from the spec's matching rules, for comparison with the
source-derived `instruction_argument_matches`: `Number(s)` matches
`Number(s2)` iff `s = s2`; `Numbers(sizes)` matches `Number(s2)` iff
`s2 ∈ sizes`; `Register(fixed)` matches `NotStaticRegister(q)` iff
`fixed = q`; other pairs never match. -/
def spec_argument_matches : InstructionArgument → InstructionArgument → Bool
  | InstructionArgument.Number s, InstructionArgument.Number s2 => s = s2
  | InstructionArgument.Numbers sizes, InstructionArgument.Number s2 => sizes.contains s2
  | InstructionArgument.Register fixed, InstructionArgument.NotStaticRegister q => fixed = q
  | _, _ => false

/-- Written from the spec's selection rule: an entry is suitable for a
query when the mnemonic matches, the addressing mode lies in the
candidate family, the argument counts agree, and the arguments match
element-wise. -/
def spec_suitable (opcode_name : String) (modes : List AddressingMode) (query : List InstructionArgument) (e : InstructionInfo) : Bool :=
  decide (e.name = opcode_name) && decide (e.addressing ∈ modes)
    && decide (e.arguments.length = query.length)
    && (List.zip e.arguments query).all (fun p => spec_argument_matches p.1 p.2)

/-- An opcode-table argument that is not the query-only
`NotStaticRegister` variant. -/
def arg_is_static : InstructionArgument → Bool
  | InstructionArgument.NotStaticRegister _ => false
  | _ => true

/-- The opcode table contains only `Number`/`Numbers`/`Register`
arguments (the spec's data-model invariant). -/
def table_is_static (instrs : List InstructionInfo) : Bool :=
  instrs.all (fun e => e.arguments.all arg_is_static)

theorem list_all_congr {α : Type} (l : List α) (f g : α → Bool)
    (h : ∀ x ∈ l, f x = g x) : l.all f = l.all g := by
  induction l with
  | nil => rfl
  | cons a l ih =>
    simp only [List.all_cons]
    rw [h a (by simp), ih (fun x hx => h x (by simp [hx]))]

theorem instruction_argument_matches_eq_spec (a q : InstructionArgument)
    (h : arg_is_static a = true) :
    instruction_argument_matches a q = spec_argument_matches a q := by
  cases a <;> cases q <;>
    simp_all [instruction_argument_matches, spec_argument_matches, arg_is_static, eq_comm]

/-! ## Claim theorems -/

/-- C1: the claim states that pass 2 replaces every instruction node by
exactly one output node, in particular that each `Indirect` and each
`IndirectLong` instruction contributes exactly one node.  The code
violates this: for a single `Indirect` (resp. `IndirectLong`)
instruction node pass 2 emits two nodes, because those two arms push
the original node before inspecting the argument and push again in
every inner branch. -/
theorem c1_indirect_nodes_duplicated :
    (resolve_pass SNES_CPU [] [indirectLdaNode]).new_tree.length = 2
    ∧ (resolve_pass SNES_CPU [] [indirectLongLdaNode]).new_tree.length = 2
    ∧ (resolve_pass SNES_CPU [] [indirectLdaNode]).new_tree = [indirectLdaNode, indirectLdaNode]
    ∧ (resolve_pass SNES_CPU [] [indirectLdaNode]).error_messages = [] := by
  refine ⟨rfl, rfl, rfl, rfl⟩

/-- C2: the claim states that for every parse AST the running
`current_address` at entry to each non-label node agrees between pass 1
and pass 2, pass 2 adding 1 for the opcode byte of every instruction
including `IndirectLong`, and both passes choosing the same operand
byte size for identifier arguments of `Immediate` instructions.  The
code violates this: after an `lda [$00]` node pass 1 is at address 2
but pass 2 at address 1 (pass 2 never adds the opcode byte for
`IndirectLong`), and after an `lda #k` node with `k` a defined label
pass 1 is at address 3 (`label_size` = 2 operand bytes) but pass 2 at
address 2 (table-derived `Word8` operand). -/
theorem c2_pass_pc_disagreement :
    (collect_pass SNES_CPU [] [indirectLongLdaNode]).current_address = 2
    ∧ (resolve_pass SNES_CPU [] [indirectLongLdaNode]).current_address = 1
    ∧ (collect_pass SNES_CPU [("k", 0)] [immediateLdaLabelNode]).current_address = 3
    ∧ (resolve_pass SNES_CPU [("k", 0)] [immediateLdaLabelNode]).current_address = 2 := by
  refine ⟨rfl, rfl, rfl, rfl⟩

set_option maxRecDepth 8192 in
/-- C9: the claim states that every token of every operation sequence
(including after `reset`) has `start_column ≥ 1`.  The code violates
this: `reset` sets `column` to `0` (while `from_file` initialises it to
`1`), so the first token after a reset carries `start_column = 0`. -/
theorem c9_reset_start_column_zero :
    (get_next_token SNES_CPU (reset (lexer_from_content ['a']))).1.start_column = 0
    ∧ (get_next_token SNES_CPU (lexer_from_content ['a'])).1.start_column = 1
    ∧ (get_next_token SNES_CPU (reset (lexer_from_content ['a']))).1.ttype = TokenType.Identifier "a" := by
  have h1 := get_next_token_eq_parse_token SNES_CPU (reset (lexer_from_content ['a'])) 'a' rfl (by decide) (by decide) (by decide)
  have h2 := get_next_token_eq_parse_token SNES_CPU (lexer_from_content ['a']) 'a' rfl (by decide) (by decide) (by decide)
  have hp1 : parse_token SNES_CPU (reset (lexer_from_content ['a'])) 'a'
      = parse_identifier_or_similar SNES_CPU (reset (lexer_from_content ['a'])) 'a' := rfl
  have hp2 : parse_token SNES_CPU (lexer_from_content ['a']) 'a'
      = parse_identifier_or_similar SNES_CPU (lexer_from_content ['a']) 'a' := rfl
  have hs1 := scan_chars_spec (fun c => is_ascii_alphanumeric c || c = '_') []
    (advance (reset (lexer_from_content ['a']))) ['a'] [] (by decide) (by simp) (by simp)
  have hs2 := scan_chars_spec (fun c => is_ascii_alphanumeric c || c = '_') []
    (advance (lexer_from_content ['a'])) ['a'] [] (by decide) (by simp) (by simp)
  refine ⟨?_, ?_, ?_⟩
  · rw [h1, hp1]
    unfold parse_identifier_or_similar
    rw [hs1]
    rfl
  · rw [h2, hp2]
    unfold parse_identifier_or_similar
    rw [hs2]
    rfl
  · rw [h1, hp1]
    unfold parse_identifier_or_similar
    rw [hs1]
    rfl

/-- C7: on the little-endian SNES system a `Word16` literal `v` is
emitted as `v &&& 0xFF` then `(v >>> 8) &&& 0xFF`; `Word24` appends
`(v >>> 16) &&& 0xFF` and `Word32` further appends
`(v >>> 24) &&& 0xFF`; on a big-endian system the byte order is
reversed. -/
theorem c7_endianness_round_trip (n : Nat) :
    SNES_CPU.is_big_endian = false
    ∧ write_number_literal false ⟨n, ArgumentSize.Word16⟩ = [n &&& 0xFF, (n >>> 8) &&& 0xFF]
    ∧ write_number_literal false ⟨n, ArgumentSize.Word24⟩ = [n &&& 0xFF, (n >>> 8) &&& 0xFF, (n >>> 16) &&& 0xFF]
    ∧ write_number_literal false ⟨n, ArgumentSize.Word32⟩ = [n &&& 0xFF, (n >>> 8) &&& 0xFF, (n >>> 16) &&& 0xFF, (n >>> 24) &&& 0xFF]
    ∧ ∀ s : ArgumentSize, write_number_literal true ⟨n, s⟩ = (write_number_literal false ⟨n, s⟩).reverse := by
  refine ⟨rfl, ?_, ?_, ?_, ?_⟩
  · simp [write_number_literal, and_255_eq_mod, shiftRight8_eq_div]
  · simp [write_number_literal, and_255_eq_mod, shiftRight8_eq_div, shiftRight16_eq_div]
  · simp [write_number_literal, and_255_eq_mod, shiftRight8_eq_div, shiftRight16_eq_div, shiftRight24_eq_div]
  · intro s
    cases s <;> simp [write_number_literal]

/-- C8: while the LoRom map is active an origin statement seeks to
`((n &&& 0x7F0000) >>> 1) ||| (n &&& 0x7FFF)`; while HiRom is active it
seeks to `n &&& 0x3FFFFF`; the initial map is the identity; and
concretely, under LoRom, `origin $008000` places the following
`lda #$01` bytes at file offsets 0 and 1 while `origin $018000` places
them at `0x8000` and `0x8001`. -/
theorem c8_origin_address_translation :
    (∀ (fs : String → List Nat) (events : List OutputEvent) (n : Nat) (s : ArgumentSize),
      writer_step SNES_CPU fs ⟨MapFunction.map_snes_lorom, events⟩ ⟨dummyToken, ParseExpression.OriginStatement ⟨n, s⟩⟩
        = ⟨MapFunction.map_snes_lorom, events ++ [OutputEvent.seek (((n &&& 0x7F0000) >>> 1) ||| (n &&& 0x7FFF))]⟩)
    ∧ (∀ (fs : String → List Nat) (events : List OutputEvent) (n : Nat) (s : ArgumentSize),
      writer_step SNES_CPU fs ⟨MapFunction.map_snes_hirom, events⟩ ⟨dummyToken, ParseExpression.OriginStatement ⟨n, s⟩⟩
        = ⟨MapFunction.map_snes_hirom, events ++ [OutputEvent.seek (n &&& 0x3FFFFF)]⟩)
    ∧ (∀ (fs : String → List Nat) (n : Nat) (s : ArgumentSize),
      write_output SNES_CPU fs [⟨dummyToken, ParseExpression.OriginStatement ⟨n, s⟩⟩] = [OutputEvent.seek n])
    ∧ file_byte (run_events (write_output SNES_CPU emptyFs (loromProgram 0x008000)) 0 []) 0 = some 0xA9
    ∧ file_byte (run_events (write_output SNES_CPU emptyFs (loromProgram 0x008000)) 0 []) 1 = some 0x01
    ∧ file_byte (run_events (write_output SNES_CPU emptyFs (loromProgram 0x018000)) 0 []) 0x8000 = some 0xA9
    ∧ file_byte (run_events (write_output SNES_CPU emptyFs (loromProgram 0x018000)) 0 []) 0x8001 = some 0x01 := by
  refine ⟨fun fs events n s => rfl, fun fs events n s => rfl, fun fs n s => rfl, rfl, rfl, rfl, rfl⟩

/-- C4: the five-statement program `bra target / nop / nop / target: /
nop` at initial address 0, run through pass 1, pass 2, pass 3 and the
emitter, writes exactly the bytes `80 02 EA EA EA` in order (and no
pass records an error). -/
theorem c4_forward_branch_program :
    write_output SNES_CPU emptyFs braPass3.new_tree
      = [OutputEvent.write [0x80], OutputEvent.write [0x02], OutputEvent.write [0xEA], OutputEvent.write [0xEA], OutputEvent.write [0xEA]]
    ∧ written_bytes (write_output SNES_CPU emptyFs braPass3.new_tree) = [0x80, 0x02, 0xEA, 0xEA, 0xEA]
    ∧ braPass2.error_messages = [] ∧ braPass3.error_messages = [] := by
  refine ⟨rfl, rfl, rfl, rfl⟩

/-- C5: pass 3's instruction lookup returns the first opcode-table
entry, in table order, whose mnemonic, addressing family, argument
count and element-wise argument matching (per the spec's rules) fit
the query — provided the table contains no query-only
`NotStaticRegister` argument, which the real table never does.  Being
a pure function of the query, the selection is deterministic. -/
theorem c5_lookup_is_first_spec_match (instrs : List InstructionInfo) (opcode_name : String)
    (modes : List AddressingMode) (query : List InstructionArgument)
    (hstatic : table_is_static instrs = true) :
    find_suitable_instruction_in instrs opcode_name modes query
      = List.find? (spec_suitable opcode_name modes query) instrs := by
  induction instrs with
  | nil => rfl
  | cons i rest ih =>
    have hall : table_is_static (i :: rest) = true := hstatic
    rw [table_is_static, List.all_cons, Bool.and_eq_true] at hall
    have hai : i.arguments.all arg_is_static = true := hall.1
    have hrest : table_is_static rest = true := hall.2
    have hzip : (List.zip i.arguments query).all (fun p => instruction_argument_matches p.1 p.2)
        = (List.zip i.arguments query).all (fun p => spec_argument_matches p.1 p.2) := by
      apply list_all_congr
      intro p hp
      apply instruction_argument_matches_eq_spec
      have hmem := (List.mem_zip hp).1
      exact (List.all_eq_true.mp hai) p.1 hmem
    have hcond : spec_suitable opcode_name modes query i = true ↔
        (i.name = opcode_name ∧ i.addressing ∈ modes
          ∧ i.arguments.length = query.length
          ∧ (List.zip i.arguments query).all (fun p => instruction_argument_matches p.1 p.2) = true) := by
      unfold spec_suitable
      rw [← hzip]
      simp [and_assoc]
    rw [find_suitable_instruction_in]
    by_cases h : (i.name = opcode_name ∧ i.addressing ∈ modes
        ∧ i.arguments.length = query.length
        ∧ (List.zip i.arguments query).all (fun p => instruction_argument_matches p.1 p.2) = true)
    · rw [if_pos h, List.find?_cons_of_pos _ (hcond.mpr h)]
    · rw [if_neg h, List.find?_cons_of_neg _ (fun hc => h (hcond.mp hc)), ih hrest]

set_option maxRecDepth 16384 in
/-- Witness for C5: the SNES table is `NotStaticRegister`-free and the
lookup of `lda` immediate with an 8-bit literal agrees with the
first-match specification. -/
theorem c5_lookup_is_first_spec_match_witness :
    table_is_static SNES_instructions = true
    ∧ find_suitable_instruction_in SNES_instructions "lda" [AddressingMode.Immediate] [InstructionArgument.Number ArgumentSize.Word8]
      = List.find? (spec_suitable "lda" [AddressingMode.Immediate] [InstructionArgument.Number ArgumentSize.Word8]) SNES_instructions :=
  ⟨by decide, c5_lookup_is_first_spec_match SNES_instructions "lda"
    [AddressingMode.Immediate] [InstructionArgument.Number ArgumentSize.Word8] (by decide)⟩

theorem int_to_u32_low_byte (d : Int) :
    int_to_u32 d &&& 0xFF = (d.emod 256).toNat := by
  unfold int_to_u32
  rw [and_255_eq_mod]
  have h1 : d.emod 4294967296 % 256 = d.emod 256 := Int.emod_emod_of_dvd d (by norm_num)
  have h0 : 0 ≤ d.emod 4294967296 := Int.emod_nonneg d (by norm_num)
  have h2 : 0 ≤ d.emod 256 := Int.emod_nonneg d (by norm_num)
  omega

theorem int_to_u32_low_word (d : Int) :
    int_to_u32 d &&& 0xFFFF = (d.emod 65536).toNat := by
  unfold int_to_u32
  rw [and_65535_eq_mod]
  have h1 : d.emod 4294967296 % 65536 = d.emod 65536 := Int.emod_emod_of_dvd d (by norm_num)
  have h0 : 0 ≤ d.emod 4294967296 := Int.emod_nonneg d (by norm_num)
  have h2 : 0 ≤ d.emod 65536 := Int.emod_nonneg d (by norm_num)
  omega

/-- C3: pass 2 on a `SingleArgument` instruction whose mnemonic is
PC-relative, whose argument is a defined label, and whose table-chosen
operand size is `Word8` or `Word16`: with
`d = target - (current_address + size_bytes)` computed after the
opcode-byte increment, an in-range `d` (`[-128, 127]` for `Word8`,
`[-32768, 32767]` for `Word16`) yields the two's-complement low 8
(resp. 16) bits of `d` as the operand and no error, an out-of-range `d`
records one error and yields operand `0`; either way the node is
rebuilt as the same variant with a `NumberLiteral` and the program
counter advances by the operand width. -/
theorem c3_relative_branch_resolution (sys : SystemDefinition) (table : SymbolTable)
    (st : ResolveState) (tok : Token) (opcode_name identifier : String) (sz : ArgumentSize)
    (hlab : has_label table identifier = true)
    (hbr : is_branching_instruction sys opcode_name = true)
    (hsize : find_instruction_argument_size sys opcode_name [AddressingMode.SingleArgument, AddressingMode.Relative] = some sz)
    (hsz : sz = ArgumentSize.Word8 ∨ sz = ArgumentSize.Word16)
    (hcur : st.current_address + 3 < u32Mod) :
    resolve_step sys table st ⟨tok, ParseExpression.SingleArgumentInstruction opcode_name (ParseArgument.Identifier identifier)⟩ =
      { current_address := st.current_address + 1 + argument_size_to_byte_size sz,
        new_tree := st.new_tree ++ [⟨tok, ParseExpression.SingleArgumentInstruction opcode_name
          (ParseArgument.NumberLiteral
            ⟨(fun (d bound m : Int) => if -(bound + 1) ≤ d ∧ d ≤ bound then (d.emod m).toNat else 0)
              ((address_for table identifier : Int) - ((st.current_address + 1 + argument_size_to_byte_size sz : Nat) : Int))
              (if sz = ArgumentSize.Word8 then 127 else 32767)
              (if sz = ArgumentSize.Word8 then 256 else 65536),
             sz⟩)⟩],
        error_messages := st.error_messages ++
          (if -((if sz = ArgumentSize.Word8 then (127:Int) else 32767) + 1)
              ≤ (address_for table identifier : Int) - ((st.current_address + 1 + argument_size_to_byte_size sz : Nat) : Int)
            ∧ (address_for table identifier : Int) - ((st.current_address + 1 + argument_size_to_byte_size sz : Nat) : Int)
              ≤ (if sz = ArgumentSize.Word8 then 127 else 32767)
           then [] else [branch_too_far_error identifier tok]) } := by
  unfold resolve_step
  simp only [hlab, if_pos, resolve_argument_size, hsize, hbr, if_true]
  have hm1 : (st.current_address + 1) % u32Mod = st.current_address + 1 :=
    Nat.mod_eq_of_lt (by omega)
  rcases hsz with h8 | h16
  · subst h8
    simp only [argument_size_to_byte_size, hm1]
    have hm2 : (st.current_address + 1 + 1) % u32Mod = st.current_address + 1 + 1 :=
      Nat.mod_eq_of_lt (by omega)
    simp only [hm2]
    set d : Int := (address_for table identifier : Int) - ((st.current_address + 1 + 1 : Nat) : Int) with hd
    by_cases hrange : d > 127 ∨ d < -128
    · rw [if_pos hrange]
      have hnot : ¬(-128 ≤ d ∧ d ≤ 127) := by omega
      simp [hnot]
    · rw [if_neg hrange]
      have hyes : -128 ≤ d ∧ d ≤ 127 := by omega
      simp [hyes, int_to_u32_low_byte]
  · subst h16
    simp only [argument_size_to_byte_size, hm1]
    have hm2 : (st.current_address + 1 + 2) % u32Mod = st.current_address + 1 + 2 :=
      Nat.mod_eq_of_lt (by omega)
    simp only [hm2]
    set d : Int := (address_for table identifier : Int) - ((st.current_address + 1 + 2 : Nat) : Int) with hd
    by_cases hrange : d > 32767 ∨ d < -32768
    · rw [if_pos hrange]
      have hnot : ¬(-32768 ≤ d ∧ d ≤ 32767) := by omega
      simp [hnot]
      constructor
      · split <;> omega
      · split
        · rename_i hP
          exact absurd hP (by omega)
        · rfl
    · rw [if_neg hrange]
      have hyes : -32768 ≤ d ∧ d ≤ 32767 := by omega
      simp [hyes, int_to_u32_low_word]
      constructor
      · split <;> omega
      · omega

/-- Witness for C3: `bra target` at address 0 with `target` at
address 4 resolves to the two's-complement displacement 2 with no
error. -/
theorem c3_relative_branch_resolution_witness :
    has_label [("target", 4)] "target" = true
    ∧ is_branching_instruction SNES_CPU "bra" = true
    ∧ find_instruction_argument_size SNES_CPU "bra" [AddressingMode.SingleArgument, AddressingMode.Relative] = some ArgumentSize.Word8
    ∧ (0 : Nat) + 3 < u32Mod
    ∧ resolve_step SNES_CPU [("target", 4)] ⟨0, [], []⟩ ⟨dummyToken, ParseExpression.SingleArgumentInstruction "bra" (ParseArgument.Identifier "target")⟩ =
      { current_address := 2,
        new_tree := [⟨dummyToken, ParseExpression.SingleArgumentInstruction "bra" (ParseArgument.NumberLiteral ⟨2, ArgumentSize.Word8⟩)⟩],
        error_messages := [] } :=
  ⟨by decide, by decide, by decide, by decide,
    by
      have h := c3_relative_branch_resolution SNES_CPU [("target", 4)] ⟨0, [], []⟩ dummyToken
        "bra" "target" ArgumentSize.Word8 (by decide) (by decide) (by decide)
        (Or.inl rfl) (by decide)
      rw [h]
      rfl⟩

theorem parse_token_hex (sys : SystemDefinition) (st : LexerState) :
    parse_token sys st '$' = parse_hex_number st := rfl

theorem parse_token_binary (sys : SystemDefinition) (st : LexerState) :
    parse_token sys st '%' = parse_binary_number st := rfl

theorem parse_token_digit (sys : SystemDefinition) (st : LexerState) (d0 : Char)
    (hd0 : is_ascii_numeric d0 = true) :
    parse_token sys st d0 = parse_number st d0 := by
  obtain ⟨h0, h9⟩ := of_decide_eq_true hd0
  unfold parse_token
  rw [if_neg, if_neg, if_neg, if_neg, if_neg, if_neg, if_neg, if_neg, if_neg, if_neg, if_neg,
      if_pos hd0]
  all_goals intro hcontra
  · exact absurd h9 (by subst hcontra; decide)
  · exact absurd h0 (by subst hcontra; decide)
  · exact absurd h9 (by subst hcontra; decide)
  · exact absurd h9 (by subst hcontra; decide)
  · exact absurd h0 (by subst hcontra; decide)
  · exact absurd h0 (by subst hcontra; decide)
  · exact absurd h0 (by subst hcontra; decide)
  · exact absurd h0 (by subst hcontra; decide)
  · exact absurd h0 (by subst hcontra; decide)
  · exact absurd h0 (by subst hcontra; decide)
  · rcases hcontra with ⟨ha, hz⟩ | ⟨hA, hZ⟩ | h_
    · exact absurd (le_trans ha h9) (by decide)
    · exact absurd (le_trans hA h9) (by decide)
    · exact absurd h9 (by subst h_; decide)

theorem drop_tail_of_cons (st : LexerState) (c : Char) (tail0 : List Char)
    (hdrop : List.drop st.current_char st.file_content = c :: tail0)
    (hlt : st.current_char < st.file_content.length) :
    List.drop (advance st).current_char (advance st).file_content = tail0 := by
  rw [advance_file_content, advance_pos_of_lt st hlt]
  have ht := congrArg List.tail hdrop
  rwa [List.tail_drop, List.tail_cons] at ht

theorem get_next_token_hex (sys : SystemDefinition) (st : LexerState) (ds rest : List Char)
    (hdrop : List.drop st.current_char st.file_content = '$' :: (ds ++ rest))
    (hds : ∀ c ∈ ds, is_ascii_hex_digit c = true)
    (hrest : ∀ r ∈ rest.head?, is_ascii_hex_digit r = false) :
    (get_next_token sys st).1.ttype = TokenType.NumberLiteral
      ⟨number_or_zero (from_str_radix ds 16), hex_argument_size ds.length⟩ := by
  have hpk : peek st = some '$' := by rw [peek_eq_head_drop, hdrop]; rfl
  have hlt := peek_lt_of_some st _ hpk
  have hdrop2 := drop_tail_of_cons st '$' (ds ++ rest) hdrop hlt
  have hs := scan_chars_spec is_ascii_hex_digit ds (advance st) [] rest hdrop2 hds hrest
  rw [get_next_token_eq_parse_token sys st '$' hpk (by decide) (by decide) (by decide),
      parse_token_hex]
  simp only [parse_hex_number]
  rw [hs]
  rfl

theorem get_next_token_binary (sys : SystemDefinition) (st : LexerState) (ds rest : List Char)
    (hdrop : List.drop st.current_char st.file_content = '%' :: (ds ++ rest))
    (hds : ∀ c ∈ ds, is_ascii_binary_digit c = true)
    (hrest : ∀ r ∈ rest.head?, is_ascii_binary_digit r = false) :
    (get_next_token sys st).1.ttype = TokenType.NumberLiteral
      ⟨number_or_zero (from_str_radix ds 2), binary_argument_size ds.length⟩ := by
  have hpk : peek st = some '%' := by rw [peek_eq_head_drop, hdrop]; rfl
  have hlt := peek_lt_of_some st _ hpk
  have hdrop2 := drop_tail_of_cons st '%' (ds ++ rest) hdrop hlt
  have hs := scan_chars_spec is_ascii_binary_digit ds (advance st) [] rest hdrop2 hds hrest
  rw [get_next_token_eq_parse_token sys st '%' hpk (by decide) (by decide) (by decide),
      parse_token_binary]
  simp only [parse_binary_number]
  rw [hs]
  rfl

theorem get_next_token_decimal (sys : SystemDefinition) (st : LexerState) (d0 : Char) (ds rest : List Char)
    (hd0 : is_ascii_numeric d0 = true)
    (hdrop : List.drop st.current_char st.file_content = d0 :: (ds ++ rest))
    (hds : ∀ c ∈ ds, is_ascii_numeric c = true)
    (hrest : ∀ r ∈ rest.head?, is_ascii_numeric r = false) :
    (get_next_token sys st).1.ttype = TokenType.NumberLiteral
      ⟨number_or_zero (from_str_radix (d0 :: ds) 10),
       number_to_argument_size (number_or_zero (from_str_radix (d0 :: ds) 10))⟩ := by
  obtain ⟨h0, h9⟩ := of_decide_eq_true hd0
  have hpk : peek st = some d0 := by rw [peek_eq_head_drop, hdrop]; rfl
  have hlt := peek_lt_of_some st _ hpk
  have hnl : d0 ≠ '\n' := fun h => absurd h0 (by subst h; decide)
  have hw : d0.isWhitespace = false := by
    have hsp : d0 ≠ ' ' := fun h => absurd h0 (by subst h; decide)
    have htb : d0 ≠ '\t' := fun h => absurd h0 (by subst h; decide)
    have hcr : d0 ≠ '\r' := fun h => absurd h0 (by subst h; decide)
    unfold Char.isWhitespace
    simp [hsp, htb, hcr, hnl]
  have hsl : d0 ≠ '/' := fun h => absurd h0 (by subst h; decide)
  have hdrop2 := drop_tail_of_cons st d0 (ds ++ rest) hdrop hlt
  have hs := scan_chars_spec is_ascii_numeric ds (advance st) [d0] rest hdrop2 hds hrest
  rw [get_next_token_eq_parse_token sys st d0 hpk hnl hw hsl,
      parse_token_digit sys st d0 hd0]
  simp only [parse_number]
  rw [hs]
  rfl

/-- C6: for every hex literal `$H` (a maximal run of hex digits after
`$`, terminated by end of input or a non-hex-digit), the lexer produces
a `NumberLiteral` token whose size is `Word32` when the digit count
exceeds 6, else `Word24` when it exceeds 4, else `Word16` when it
exceeds 2, else `Word8` — the size is a function of the digit count
alone, never of the numeric value (which appears only in the `number`
field). -/
theorem c6_hex_size_by_digit_count (sys : SystemDefinition) (st : LexerState) (ds rest : List Char)
    (hdrop : List.drop st.current_char st.file_content = '$' :: (ds ++ rest))
    (hds : ∀ c ∈ ds, is_ascii_hex_digit c = true)
    (hrest : ∀ r ∈ rest.head?, is_ascii_hex_digit r = false) :
    (get_next_token sys st).1.ttype = TokenType.NumberLiteral
      ⟨number_or_zero (from_str_radix ds 16),
       if ds.length > 6 then ArgumentSize.Word32
       else if ds.length > 4 then ArgumentSize.Word24
       else if ds.length > 2 then ArgumentSize.Word16
       else ArgumentSize.Word8⟩ :=
  get_next_token_hex sys st ds rest hdrop hds hrest

/-- Witness for C6: `$1A2B` lexes to the 16-bit literal `0x1A2B`. -/
theorem c6_hex_size_by_digit_count_witness :
    List.drop (lexer_from_content ['$', '1', 'A', '2', 'B']).current_char
        (lexer_from_content ['$', '1', 'A', '2', 'B']).file_content
      = '$' :: (['1', 'A', '2', 'B'] ++ [])
    ∧ (∀ c ∈ ['1', 'A', '2', 'B'], is_ascii_hex_digit c = true)
    ∧ (get_next_token SNES_CPU (lexer_from_content ['$', '1', 'A', '2', 'B'])).1.ttype
        = TokenType.NumberLiteral ⟨0x1A2B, ArgumentSize.Word16⟩ :=
  ⟨by decide, by decide, by
    have h := c6_hex_size_by_digit_count SNES_CPU (lexer_from_content ['$', '1', 'A', '2', 'B'])
      ['1', 'A', '2', 'B'] [] (by decide) (by decide) (by simp)
    rw [h]
    rfl⟩

/-- C10: a numeric literal token whose digit string denotes a value
outside the `u32` range still lexes to a `NumberLiteral` (never an
`Invalid` token; the lexer has no diagnostic channel at all) with value
`0`: for hex and binary the size is still classified from the digit
count, while for decimal it is classified from the resulting value `0`,
i.e. `Word8`. -/
theorem c10_overflowing_literals_become_zero :
    (∀ (sys : SystemDefinition) (st : LexerState) (ds rest : List Char),
      List.drop st.current_char st.file_content = '$' :: (ds ++ rest) →
      (∀ c ∈ ds, is_ascii_hex_digit c = true) →
      (∀ r ∈ rest.head?, is_ascii_hex_digit r = false) →
      u32Mod ≤ digits_value 16 ds →
      (get_next_token sys st).1.ttype
        = TokenType.NumberLiteral ⟨0, hex_argument_size ds.length⟩)
    ∧ (∀ (sys : SystemDefinition) (st : LexerState) (ds rest : List Char),
      List.drop st.current_char st.file_content = '%' :: (ds ++ rest) →
      (∀ c ∈ ds, is_ascii_binary_digit c = true) →
      (∀ r ∈ rest.head?, is_ascii_binary_digit r = false) →
      u32Mod ≤ digits_value 2 ds →
      (get_next_token sys st).1.ttype
        = TokenType.NumberLiteral ⟨0, binary_argument_size ds.length⟩)
    ∧ (∀ (sys : SystemDefinition) (st : LexerState) (d0 : Char) (ds rest : List Char),
      is_ascii_numeric d0 = true →
      List.drop st.current_char st.file_content = d0 :: (ds ++ rest) →
      (∀ c ∈ ds, is_ascii_numeric c = true) →
      (∀ r ∈ rest.head?, is_ascii_numeric r = false) →
      u32Mod ≤ digits_value 10 (d0 :: ds) →
      (get_next_token sys st).1.ttype
        = TokenType.NumberLiteral ⟨0, ArgumentSize.Word8⟩) := by
  refine ⟨?_, ?_, ?_⟩
  · intro sys st ds rest hdrop hds hrest hbig
    rw [get_next_token_hex sys st ds rest hdrop hds hrest]
    have hne : ds.isEmpty = false := by
      cases ds with
      | nil => simp [digits_value, u32Mod] at hbig
      | cons a l => rfl
    have hfsr : from_str_radix ds 16 = none := by
      simp only [from_str_radix, hne, Bool.false_eq_true, if_false,
        if_neg (show ¬ digits_value 16 ds < u32Mod by omega)]
    rw [hfsr]
    rfl
  · intro sys st ds rest hdrop hds hrest hbig
    rw [get_next_token_binary sys st ds rest hdrop hds hrest]
    have hne : ds.isEmpty = false := by
      cases ds with
      | nil => simp [digits_value, u32Mod] at hbig
      | cons a l => rfl
    have hfsr : from_str_radix ds 2 = none := by
      simp only [from_str_radix, hne, Bool.false_eq_true, if_false,
        if_neg (show ¬ digits_value 2 ds < u32Mod by omega)]
    rw [hfsr]
    rfl
  · intro sys st d0 ds rest hd0 hdrop hds hrest hbig
    rw [get_next_token_decimal sys st d0 ds rest hd0 hdrop hds hrest]
    have hfsr : from_str_radix (d0 :: ds) 10 = none := by
      simp only [from_str_radix, List.isEmpty_cons, Bool.false_eq_true, if_false,
        if_neg (show ¬ digits_value 10 (d0 :: ds) < u32Mod by omega)]
    rw [hfsr]
    rfl

/-- Witness for C10: the 9-digit hex literal `$100000000` (value
`2^32`) lexes to `NumberLiteral 0` of size `Word32`. -/
theorem c10_overflowing_literals_become_zero_witness :
    u32Mod ≤ digits_value 16 ['1', '0', '0', '0', '0', '0', '0', '0', '0']
    ∧ (get_next_token SNES_CPU (lexer_from_content ['$', '1', '0', '0', '0', '0', '0', '0', '0', '0'])).1.ttype
        = TokenType.NumberLiteral ⟨0, ArgumentSize.Word32⟩ :=
  ⟨by decide, by
    have h := c10_overflowing_literals_become_zero.1 SNES_CPU
      (lexer_from_content ['$', '1', '0', '0', '0', '0', '0', '0', '0', '0'])
      ['1', '0', '0', '0', '0', '0', '0', '0', '0'] [] (by decide) (by decide) (by simp) (by decide)
    rw [h]
    rfl⟩

end Zeal
